import Mathlib

/-!
Verification development for the PytorchSR module library
(src/models/modules.py): a shallow embedding over exact rationals of the
tensor computations performed by SeqLinear, Highwaynet, CBHG, MinimalGRU
and SeparatedBatchNorm1d, together with theorems about the shape and
value behaviour of their forward passes.

The tensor engine's transcendental scalar functions (sigmoid, tanh,
sqrt) are black-box collaborators of this code base; they are passed
explicitly as an `Engine` of rational-valued functions, and theorems
quantify over them (adding the mathematical facts they satisfy, such as
`tanh 0 = 0`, as hypotheses where a claim needs them).
-/

namespace PytorchSR

/-- Scalar functions supplied by the tensor engine (torch). -/
structure Engine where
  sigmoid : ℚ → ℚ
  tanh : ℚ → ℚ
  sqrt : ℚ → ℚ

/-- Python-level exceptions raised by the modules. -/
inductive PyError where
  | valueError : String → PyError
  | attributeError : String → PyError
  | assertionError : PyError
  | notImplementedError : String → PyError

/-- A 1-D tensor: a length and a data function (0 outside range). -/
structure Tensor1 where
  n0 : ℕ
  data : ℕ → ℚ

/-- A 2-D tensor. -/
structure Tensor2 where
  n0 : ℕ
  n1 : ℕ
  data : ℕ → ℕ → ℚ

/-- A 3-D tensor. -/
structure Tensor3 where
  n0 : ℕ
  n1 : ℕ
  n2 : ℕ
  data : ℕ → ℕ → ℕ → ℚ

/-- Build a 1-D tensor whose data is clamped to 0 outside its range. -/
def mk1 (n : ℕ) (f : ℕ → ℚ) : Tensor1 :=
  ⟨n, fun i => if i < n then f i else 0⟩

/-- Build a 2-D tensor whose data is clamped to 0 outside its range. -/
def mk2 (a b : ℕ) (f : ℕ → ℕ → ℚ) : Tensor2 :=
  ⟨a, b, fun i j => if i < a ∧ j < b then f i j else 0⟩

/-- Build a 3-D tensor whose data is clamped to 0 outside its range. -/
def mk3 (a b c : ℕ) (f : ℕ → ℕ → ℕ → ℚ) : Tensor3 :=
  ⟨a, b, c, fun i j k => if i < a ∧ j < b ∧ k < c then f i j k else 0⟩

/-- torch.zeros for 3-D shapes. -/
def zeros3 (a b c : ℕ) : Tensor3 := ⟨a, b, c, fun _ _ _ => 0⟩

/-- Pointwise map over a 2-D tensor. -/
def map2 (f : ℚ → ℚ) (x : Tensor2) : Tensor2 :=
  mk2 x.n0 x.n1 (fun i j => f (x.data i j))

/-- Pointwise map over a 3-D tensor. -/
def map3 (f : ℚ → ℚ) (x : Tensor3) : Tensor3 :=
  mk3 x.n0 x.n1 x.n2 (fun i j k => f (x.data i j k))

/-- Elementwise sum of two 2-D tensors (shapes agree in all uses). -/
def add2 (x y : Tensor2) : Tensor2 :=
  mk2 x.n0 x.n1 (fun i j => x.data i j + y.data i j)

/-- Elementwise sum of two 3-D tensors (shapes agree in all uses). -/
def add3 (x y : Tensor3) : Tensor3 :=
  mk3 x.n0 x.n1 x.n2 (fun i j k => x.data i j k + y.data i j k)

/-- Elementwise product of two 2-D tensors. -/
def mul2 (x y : Tensor2) : Tensor2 :=
  mk2 x.n0 x.n1 (fun i j => x.data i j * y.data i j)

/-- Elementwise product of two 3-D tensors. -/
def mul3 (x y : Tensor3) : Tensor3 :=
  mk3 x.n0 x.n1 x.n2 (fun i j k => x.data i j k * y.data i j k)

/-- The broadcast expression `1. - t` on a 3-D tensor. -/
def oneMinus3 (x : Tensor3) : Tensor3 :=
  mk3 x.n0 x.n1 x.n2 (fun i j k => 1 - x.data i j k)

/-- The broadcast expression `1 - ug` on a 2-D tensor. -/
def oneMinus2 (x : Tensor2) : Tensor2 :=
  mk2 x.n0 x.n1 (fun i j => 1 - x.data i j)

/-- Scalar ReLU, `F.relu` on one element: max(x, 0). -/
def reluQ (q : ℚ) : ℚ := max q 0

/-- F.relu on a 2-D tensor. -/
def relu2 (x : Tensor2) : Tensor2 := map2 reluQ x

/-- F.relu on a 3-D tensor. -/
def relu3 (x : Tensor3) : Tensor3 := map3 reluQ x

/-- Row broadcast product: `gates *= mask` with a 1-D mask over dim 1. -/
def rowScale (x : Tensor2) (v : Tensor1) : Tensor2 :=
  mk2 x.n0 x.n1 (fun i j => x.data i j * v.data j)

/-- Contiguous slice `x[:, lo : lo+len]` of a 2-D tensor. -/
def slice2 (x : Tensor2) (lo len : ℕ) : Tensor2 :=
  mk2 x.n0 len (fun i j => x.data i (lo + j))

/-- torch.chunk(2, dim=1): two halves of dim 1 (first gets the ceiling). -/
def chunk2 (x : Tensor2) : Tensor2 × Tensor2 :=
  (slice2 x 0 ((x.n1 + 1) / 2), slice2 x ((x.n1 + 1) / 2) (x.n1 - (x.n1 + 1) / 2))

/-- unsqueeze_(1) on a 2-D tensor, giving shape (n0, 1, n1). -/
def unsqueeze1 (x : Tensor2) : Tensor3 :=
  mk3 x.n0 1 x.n1 (fun i _ k => x.data i k)

/-- torch.cat([x, y], dim=1) on 2-D tensors. -/
def cat2dim1 (x y : Tensor2) : Tensor2 :=
  mk2 x.n0 (x.n1 + y.n1) (fun i j => if j < x.n1 then x.data i j else y.data i (j - x.n1))

/-- torch.cat(ts, dim=1) on a list of 3-D tensors (torch rejects an empty
list; the empty case yields the empty tensor here and is never reached by
the source's call sites with at least one bank / timestep). -/
def cat3dim1 : List Tensor3 → Tensor3
  | [] => ⟨0, 0, 0, fun _ _ _ => 0⟩
  | x :: xs =>
    let rest := cat3dim1 xs
    mk3 x.n0 (x.n1 + rest.n1) x.n2
      (fun i j k => if j < x.n1 then x.data i j k else rest.data i (j - x.n1) k)

/-- The timestep slice `x[:, t, :]` of a 3-D tensor. -/
def sliceTime (x : Tensor3) (t : ℕ) : Tensor2 :=
  mk2 x.n0 x.n2 (fun b f => x.data b t f)

/-- The slice `x[i]` of a 3-D tensor along dim 0. -/
def sliceDim0 (x : Tensor3) (i : ℕ) : Tensor2 :=
  mk2 x.n1 x.n2 (fun a b => x.data i a b)

/-- torch.transpose(x, 1, 2). -/
def transpose12 (x : Tensor3) : Tensor3 :=
  mk3 x.n0 x.n2 x.n1 (fun i j k => x.data i k j)

/-- x.contiguous(): identity on the functional representation. -/
def contiguous3 (x : Tensor3) : Tensor3 := x

/-- F.linear(input, weight, bias) = input · weightᵀ + bias, on a 2-D input
of shape (N, in_features) with weight (out_features, in_features). -/
def linear (input : Tensor2) (w : Tensor2) (b : Option Tensor1) : Tensor2 :=
  mk2 input.n0 w.n0 (fun i o =>
    Finset.sum (Finset.range w.n1) (fun j => input.data i j * w.data o j) +
      (match b with
       | some bv => bv.data o
       | none => 0))

/-- x.view(-1, cols) on a contiguous 3-D tensor: reinterpret the row-major
element stream as a 2-D tensor with `cols` columns. -/
def view2 (x : Tensor3) (cols : ℕ) : Tensor2 :=
  mk2 (x.n0 * x.n1 * x.n2 / cols) cols (fun i j =>
    let p := i * cols + j
    x.data (p / (x.n1 * x.n2)) (p / x.n2 % x.n1) (p % x.n2))

/-- x.view(d0, -1, cols) on a 2-D tensor: reinterpret the row-major
element stream as a 3-D tensor, inferring the middle dimension. -/
def view3 (x : Tensor2) (d0 cols : ℕ) : Tensor3 :=
  mk3 d0 (x.n0 * x.n1 / (d0 * cols)) cols (fun i j k =>
    let p := (i * (x.n0 * x.n1 / (d0 * cols)) + j) * cols + k
    x.data (p / x.n1) (p % x.n1))

/-- F.conv1d with stride 1 and zero padding `pad`: input (B, C_in, L),
weight (C_out, C_in, k), output length L + 2*pad - k + 1. -/
def conv1dF (x : Tensor3) (w : Tensor3) (b : Tensor1) (pad : ℕ) : Tensor3 :=
  mk3 x.n0 w.n0 (x.n2 + 2 * pad + 1 - w.n2) (fun bi oc i =>
    b.data oc +
      Finset.sum (Finset.range w.n1) (fun ic =>
        Finset.sum (Finset.range w.n2) (fun j =>
          w.data oc ic j *
            (if pad ≤ i + j ∧ i + j - pad < x.n2 then x.data bi ic (i + j - pad) else 0))))

/-- The slice x[:, :, :-1] dropping the last timestep. -/
def trimLast (x : Tensor3) : Tensor3 :=
  mk3 x.n0 x.n1 (x.n2 - 1) (fun i j k => x.data i j k)

/-- nn.MaxPool1d(kernel, stride=1, padding=1); maxpool pads with -inf, so
the maximum is taken over the in-range part of each window (windows are
nonempty at every in-range output position for the kernel sizes used). -/
def maxPool1dPad1 (x : Tensor3) (kernel : ℕ) : Tensor3 :=
  mk3 x.n0 x.n1 (x.n2 + 2 + 1 - kernel) (fun b c i =>
    ((List.range kernel).filterMap (fun j =>
        if 1 ≤ i + j ∧ i + j - 1 < x.n2 then some (x.data b c (i + j - 1)) else none)).foldr
      max 0)

/-! ## SeparatedBatchNorm1d (src/models/modules.py lines 412-474)

A batch normalization module keeping running mean and variance
separately per timestep, as buffers `running_mean_i` / `running_var_i`
for `i` in `[0, max_length)`; buffer lookup at any other index raises
AttributeError in Python. -/

/-- The module state of SeparatedBatchNorm1d. The per-timestep buffers
registered with `register_buffer('running_mean_i', ...)` are modelled as
functions from the timestep index; `forward` only ever dereferences
indices of registered buffers and errors on the rest, mirroring
getattr. -/
structure SBN where
  num_features : ℕ
  max_length : ℕ
  eps : ℚ
  momentum : ℚ
  affine : Bool
  weight : Tensor1
  bias : Tensor1
  running_mean : ℕ → Tensor1
  running_var : ℕ → Tensor1

/-- The SeparatedBatchNorm1d constructor plus reset_parameters: affine
weight drawn by `uniform_()` (the draw is passed in as `wdraw`), bias
zeroed, every running mean zeroed and every running variance set to 1. -/
def SBN.init (num_features max_length : ℕ) (eps momentum : ℚ) (affine : Bool)
    (wdraw : ℕ → ℚ) : SBN :=
  { num_features := num_features
    max_length := max_length
    eps := eps
    momentum := momentum
    affine := affine
    weight := mk1 num_features wdraw
    bias := mk1 num_features (fun _ => 0)
    running_mean := fun _ => mk1 num_features (fun _ => 0)
    running_var := fun _ => mk1 num_features (fun _ => 1) }

/-- SeparatedBatchNorm1d._check_input_dim: compares the input's feature
axis with `self.running_mean_0.nelement()`; reading `running_mean_0`
itself raises AttributeError when no buffer was registered. -/
def SBN.checkInputDim (s : SBN) (input_ : Tensor2) : Except PyError Unit :=
  if s.max_length = 0 then
    Except.error (PyError.attributeError "running_mean_0")
  else if input_.n1 ≠ (s.running_mean 0).n0 then
    Except.error (PyError.valueError
      ("got " ++ toString input_.n1 ++ "-feature tensor, expected " ++ toString s.num_features))
  else Except.ok ()

/-- F.batch_norm on a 2-D input (N, C) against the buffers at (already
clamped, in-range) timestep index `ti`: in training mode, normalize by
the batch statistics and update the running buffers in place by
exponential moving average (unbiased variance, as torch does); in eval
mode, normalize by the stored running statistics. -/
def SBN.bnStep (E : Engine) (s : SBN) (training : Bool) (input_ : Tensor2) (ti : ℕ) :
    Tensor2 × SBN :=
  let N := input_.n0
  let mr := s.running_mean ti
  let vr := s.running_var ti
  if training then
    let mu : ℕ → ℚ := fun c => (Finset.sum (Finset.range N) (fun b => input_.data b c)) / N
    let vB : ℕ → ℚ := fun c =>
      (Finset.sum (Finset.range N) (fun b => (input_.data b c - mu c) ^ 2)) / N
    let vU : ℕ → ℚ := fun c =>
      (Finset.sum (Finset.range N) (fun b => (input_.data b c - mu c) ^ 2)) / ((N : ℚ) - 1)
    let out := mk2 input_.n0 input_.n1 (fun b c =>
      let z := (input_.data b c - mu c) / E.sqrt (vB c + s.eps)
      if s.affine then z * s.weight.data c + s.bias.data c else z)
    let s' := { s with
      running_mean := fun i =>
        if i = ti then mk1 mr.n0 (fun c => (1 - s.momentum) * mr.data c + s.momentum * mu c)
        else s.running_mean i
      running_var := fun i =>
        if i = ti then mk1 vr.n0 (fun c => (1 - s.momentum) * vr.data c + s.momentum * vU c)
        else s.running_var i }
    (out, s')
  else
    (mk2 input_.n0 input_.n1 (fun b c =>
      let z := (input_.data b c - mr.data c) / E.sqrt (vr.data c + s.eps)
      if s.affine then z * s.weight.data c + s.bias.data c else z), s)

/-- SeparatedBatchNorm1d.forward: dimension check, clamp `time` to
`max_length - 1` at the upper end only, resolve that timestep's buffers
(failing like getattr for a negative, hence unregistered, index) and
apply F.batch_norm. Returns the output together with the module state
after the call. -/
def SBN.forward (E : Engine) (s : SBN) (training : Bool) (input_ : Tensor2) (time : ℤ) :
    Except PyError (Tensor2 × SBN) :=
  match SBN.checkInputDim s input_ with
  | Except.error e => Except.error e
  | Except.ok _ =>
    let t : ℤ := if (s.max_length : ℤ) ≤ time then (s.max_length : ℤ) - 1 else time
    if t < 0 then
      Except.error (PyError.attributeError ("running_mean_" ++ toString t))
    else
      Except.ok (SBN.bnStep E s training input_ t.toNat)

/-- The module buffers after a forward call: a Python exception
propagates before any buffer assignment, leaving the state unchanged. -/
def SBN.forwardState (E : Engine) (s : SBN) (training : Bool) (input_ : Tensor2) (time : ℤ) :
    SBN :=
  match SBN.forward E s training input_ time with
  | Except.ok p => p.2
  | Except.error _ => s

/-! ## SeqLinear (src/models/modules.py lines 11-43) -/

/-- The SeqLinear module: one nn.Linear plus a time-axis convention. -/
structure SeqLinearM where
  input_size : ℕ
  output_size : ℕ
  time_dim : ℕ
  weight : Tensor2
  bias : Tensor1

/-- The SeqLinear constructor: nn.Linear(input_size, output_size) owns a
weight of shape (output_size, input_size) and a bias of shape
(output_size); their randomly initialized entries are passed in. -/
def SeqLinear.init (input_size output_size time_dim : ℕ)
    (wd : ℕ → ℕ → ℚ) (bd : ℕ → ℚ) : SeqLinearM :=
  ⟨input_size, output_size, time_dim,
   mk2 output_size input_size wd, mk1 output_size bd⟩

/-- SeqLinear.forward: optionally transpose time and feature axes, apply
the shared linear map to the flattened positions, reshape back, and
transpose again when `time_dim == 2`. -/
def SeqLinearM.forward (m : SeqLinearM) (input0 : Tensor3) : Tensor3 :=
  let batch_size := input0.n0
  let input_ := if m.time_dim = 2 then transpose12 input0 else input0
  let input2 := view2 (contiguous3 input_) m.input_size
  let out := view3 (linear input2 m.weight (some m.bias)) batch_size m.output_size
  if m.time_dim = 2 then transpose12 (contiguous3 out) else out

/-! ## Highwaynet (src/models/modules.py lines 179-210) -/

/-- The Highwaynet module: `num_layers` pairs of SeqLinear layers
(transform and gate), all with `time_dim=2`. -/
structure HighwayM where
  num_units : ℕ
  num_layers : ℕ
  linears : ℕ → SeqLinearM
  gates : ℕ → SeqLinearM

/-- The Highwaynet constructor. -/
def Highway.init (num_units num_layers : ℕ)
    (lw : ℕ → ℕ → ℕ → ℚ) (lb : ℕ → ℕ → ℚ)
    (gw : ℕ → ℕ → ℕ → ℚ) (gb : ℕ → ℕ → ℚ) : HighwayM :=
  ⟨num_units, num_layers,
   fun i => SeqLinear.init num_units num_units 2 (lw i) (lb i),
   fun i => SeqLinear.init num_units num_units 2 (gw i) (gb i)⟩

/-- The highway gated loop: `out = h*t + out*(1-t)` per layer. -/
def highwayLoop (E : Engine) (m : HighwayM) (layers : List ℕ) (out : Tensor3) : Tensor3 :=
  match layers with
  | [] => out
  | i :: rest =>
    let h := relu3 ((m.linears i).forward out)
    let t := map3 E.sigmoid ((m.gates i).forward out)
    let c := oneMinus3 t
    highwayLoop E m rest (add3 (mul3 h t) (mul3 out c))

/-- Highwaynet.forward. -/
def HighwayM.forward (E : Engine) (m : HighwayM) (input_ : Tensor3) : Tensor3 :=
  highwayLoop E m (List.range m.num_layers) input_

/-! ## MinimalGRU (src/models/modules.py lines 242-409) -/

/-- One (layer, direction) weight slot of MinimalGRU: the four
`setattr`-registered parameters plus the non-trainable dropout-mask
source (a ones tensor of gate size). -/
structure GRUSlot where
  w_ih : Tensor2
  w_hh : Tensor2
  b_ih : Tensor1
  b_hh : Tensor1
  drop_mask : Tensor1

/-- The random parameter draws consumed by the MinimalGRU constructor's
reset_parameters (uniform in [-1/sqrt(hidden), 1/sqrt(hidden)]); indexed
by the slot index `layer * num_directions + direction`. `sbnW` is the
uniform draw of the per-timestep norm's affine weight (the Bool selects
the hidden-projection norm over the input-projection norm). -/
structure MinimalGRUDraw where
  wih : ℕ → ℕ → ℕ → ℚ
  whh : ℕ → ℕ → ℕ → ℚ
  bih : ℕ → ℕ → ℚ
  bhh : ℕ → ℕ → ℚ
  sbnW : ℕ → Bool → ℕ → ℚ

/-- The MinimalGRU module state. -/
structure MinimalGRUM where
  input_size : ℕ
  hidden_size : ℕ
  max_len : ℕ
  num_layers : ℕ
  num_directions : ℕ
  bias : Bool
  dropout : ℚ
  nonlinearity : String
  is_norm : Bool
  slots : ℕ → GRUSlot
  i_norm : ℕ → SBN
  h_norm : ℕ → SBN

/-- The module assembled by the MinimalGRU constructor after its
validation checks pass: per (layer, direction) slot, weight_ih of shape
(2*hidden, layer_input_size) with layer 0 reading input_size and deeper
layers reading hidden*num_directions, weight_hh of shape (2*hidden,
hidden), biases of gate size, a ones drop_mask, and a pair of
SeparatedBatchNorm1d modules of gate size over max_len timesteps. -/
def MinimalGRU.initModule (input_size hidden_size max_len num_layers : ℕ)
    (is_bidirection bias : Bool) (dropout : ℚ) (nonlinearity : String) (is_norm : Bool)
    (θ : MinimalGRUDraw) : MinimalGRUM :=
  let nd := if is_bidirection then 2 else 1
  let gate_size := 2 * hidden_size
  { input_size := input_size
    hidden_size := hidden_size
    max_len := max_len
    num_layers := num_layers
    num_directions := nd
    bias := bias
    dropout := dropout
    nonlinearity := nonlinearity
    is_norm := is_norm
    slots := fun idx =>
      let layer := idx / nd
      let layer_input_size := if layer = 0 then input_size else hidden_size * nd
      ⟨mk2 gate_size layer_input_size (θ.wih idx),
       mk2 gate_size hidden_size (θ.whh idx),
       mk1 gate_size (θ.bih idx),
       mk1 gate_size (θ.bhh idx),
       mk1 gate_size (fun _ => 1)⟩
    i_norm := fun idx => SBN.init gate_size max_len (1 / 100000) (1 / 10) true (θ.sbnW idx false)
    h_norm := fun idx => SBN.init gate_size max_len (1 / 100000) (1 / 10) true (θ.sbnW idx true) }

/-- The MinimalGRU constructor: rejects a dropout probability outside
[0, 1] with ValueError, rejects any nonlinearity other than 'relu' and
'tanh' with NotImplementedError, and otherwise builds the module. -/
def MinimalGRU.init (input_size hidden_size max_len num_layers : ℕ)
    (is_bidirection bias : Bool) (dropout : ℚ) (nonlinearity : String) (is_norm : Bool)
    (θ : MinimalGRUDraw) : Except PyError MinimalGRUM :=
  if dropout < 0 ∨ 1 < dropout then
    Except.error (PyError.valueError "Dropout is not valid value!")
  else if nonlinearity = "relu" ∨ nonlinearity = "tanh" then
    Except.ok (MinimalGRU.initModule input_size hidden_size max_len num_layers
      is_bidirection bias dropout nonlinearity is_norm θ)
  else
    Except.error (PyError.notImplementedError
      (nonlinearity ++ " nonlinearity is not implemented !!"))

/-- The configured nonlinearity `self.act`: nn.ReLU or nn.Tanh. -/
def applyAct (E : Engine) (nonlinearity : String) (x : Tensor2) : Tensor2 :=
  if nonlinearity = "relu" then relu2 x else map2 E.tanh x

/-- The GRU-cell part of MinimalGRU.forward's time loop (lines 366-381):
gates from the input and hidden projections, optional per-timestep
normalization of each part, recurrent-dropout mask, two-way chunk,
sigmoid update gate, nonlinear candidate, and the convex hidden-state
update. Returns the new hidden state with the norm-module states. -/
def minimalGRUCell (E : Engine) (nonlinearity : String) (is_norm training : Bool)
    (w_ih w_hh : Tensor2) (b_ih b_hh : Option Tensor1) (mask : Option Tensor1)
    (inorm hnorm : SBN) (input hx_ : Tensor2) (t : ℕ) :
    Except PyError (Tensor2 × SBN × SBN) :=
  let in_part0 := linear input w_ih b_ih
  let h_part0 := linear hx_ w_hh b_hh
  let normed : Except PyError ((Tensor2 × SBN) × (Tensor2 × SBN)) :=
    if is_norm then
      match SBN.forward E inorm training in_part0 t with
      | Except.error e => Except.error e
      | Except.ok pin =>
        match SBN.forward E hnorm training h_part0 t with
        | Except.error e => Except.error e
        | Except.ok ph => Except.ok (pin, ph)
    else
      Except.ok ((in_part0, inorm), (h_part0, hnorm))
  match normed with
  | Except.error e => Except.error e
  | Except.ok ((in_part, inorm'), (h_part, hnorm')) =>
    let gates0 := add2 in_part h_part
    let gates :=
      match mask with
      | some mv => rowScale gates0 mv
      | none => gates0
    let parts := chunk2 gates
    let ug := map2 E.sigmoid parts.1
    let og := applyAct E nonlinearity parts.2
    let hx2 := add2 (mul2 ug hx_) (mul2 (oneMinus2 ug) og)
    Except.ok (hx2, inorm', hnorm')

/-- The sequential time loop of one (layer, direction) pass: iterate the
GRU cell over the given timestep indices, collecting every hidden state
in order (`hx_outputs.append`). -/
def minimalGRURunDir (E : Engine) (nonlinearity : String) (is_norm training : Bool)
    (w_ih w_hh : Tensor2) (b_ih b_hh : Option Tensor1) (mask : Option Tensor1)
    (x : Tensor3) (ts : List ℕ) (st : Tensor2 × List Tensor2 × SBN × SBN) :
    Except PyError (Tensor2 × List Tensor2 × SBN × SBN) :=
  match ts with
  | [] => Except.ok st
  | t :: rest =>
    match minimalGRUCell E nonlinearity is_norm training w_ih w_hh b_ih b_hh mask
        st.2.2.1 st.2.2.2 (sliceTime x t) st.1 t with
    | Except.error e => Except.error e
    | Except.ok (hx2, inorm', hnorm') =>
      minimalGRURunDir E nonlinearity is_norm training w_ih w_hh b_ih b_hh mask x rest
        (hx2, st.2.1 ++ [hx2], inorm', hnorm')

/-- The direction loop of one MinimalGRU layer: resolve the slot's
parameters (biases only when `self.bias`, the dropout mask through the
dropout module only when `self.dropout` is nonzero), take the initial
hidden slice `hx[layer*num_directions+direction]`, run the time loop
and record its outputs; the norm-module states mutated by the pass are
written back into the module. `dropFn` is the stochastic dropout module
application. -/
def minimalGRUDirLoop (E : Engine) (training : Bool) (dropFn : ℕ → Tensor1 → Tensor1)
    (hx : Tensor3) (t_len : ℕ) (layer : ℕ) (xcur : Tensor3) (dirs : List ℕ)
    (acc : List (List Tensor2) × MinimalGRUM) :
    Except PyError (List (List Tensor2) × MinimalGRUM) :=
  match dirs with
  | [] => Except.ok acc
  | direction :: rest =>
    let mcur := acc.2
    let idx := layer * mcur.num_directions + direction
    let slot := mcur.slots idx
    let b_ih := if mcur.bias then some slot.b_ih else none
    let b_hh := if mcur.bias then some slot.b_hh else none
    let mask := if mcur.dropout ≠ 0 then some (dropFn idx slot.drop_mask) else none
    let hx_ := sliceDim0 hx idx
    match minimalGRURunDir E mcur.nonlinearity mcur.is_norm training slot.w_ih slot.w_hh
        b_ih b_hh mask xcur (List.range t_len) (hx_, [], mcur.i_norm idx, mcur.h_norm idx) with
    | Except.error e => Except.error e
    | Except.ok (_, outs, inorm', hnorm') =>
      let mcur2 := { mcur with
        i_norm := fun j => if j = idx then inorm' else mcur.i_norm j
        h_norm := fun j => if j = idx then hnorm' else mcur.h_norm j }
      minimalGRUDirLoop E training dropFn hx t_len layer xcur rest (acc.1 ++ [outs], mcur2)

/-- Lines 387-407: assert the direction count, then build the layer
output: bidirectional passes zip the forward outputs with the reversed
backward outputs, concatenate each pair along the feature axis,
unsqueeze a time axis and concatenate over time; a single direction
just stacks its outputs over time. -/
def minimalGRUCombine (layer_outputs : List (List Tensor2)) : Except PyError Tensor3 :=
  match layer_outputs with
  | [single] => Except.ok (cat3dim1 (single.map unsqueeze1))
  | [f, b] => Except.ok (cat3dim1 ((f.zip b.reverse).map (fun p => unsqueeze1 (cat2dim1 p.1 p.2))))
  | _ => Except.error PyError.assertionError

/-- The stacked-layer loop of MinimalGRU.forward: each layer consumes
the previous layer's combined output as its input sequence. -/
def minimalGRULayerLoop (E : Engine) (training : Bool) (dropFn : ℕ → Tensor1 → Tensor1)
    (hx : Tensor3) (t_len : ℕ) (layers : List ℕ) (st : Tensor3 × MinimalGRUM) :
    Except PyError (Tensor3 × MinimalGRUM) :=
  match layers with
  | [] => Except.ok st
  | layer :: rest =>
    match minimalGRUDirLoop E training dropFn hx t_len layer st.1
        (List.range st.2.num_directions) ([], st.2) with
    | Except.error e => Except.error e
    | Except.ok (layer_outputs, mcur2) =>
      match minimalGRUCombine layer_outputs with
      | Except.error e => Except.error e
      | Except.ok xnext => minimalGRULayerLoop E training dropFn hx t_len rest (xnext, mcur2)

/-- MinimalGRU.forward: `assert time_dim == 1` guards the whole body;
on success the layers are processed in order over `t_len = x.size(1)`
timesteps. Returns the output sequence with the module state after the
call (the per-timestep norm statistics are mutated by a training-mode
pass). -/
def MinimalGRU.forward (E : Engine) (m : MinimalGRUM) (training : Bool)
    (dropFn : ℕ → Tensor1 → Tensor1) (x : Tensor3) (hx : Tensor3) (time_dim : ℕ) :
    Except PyError (Tensor3 × MinimalGRUM) :=
  if time_dim = 1 then
    minimalGRULayerLoop E training dropFn hx x.n1 (List.range m.num_layers) (x, m)
  else Except.error PyError.assertionError

/-! ## The torch bidirectional GRU consumed by CBHG (nn.GRU) -/

/-- One (layer, direction) weight set of torch's nn.GRU: weight_ih of
shape (3*hidden, in), weight_hh of shape (3*hidden, hidden), biases of
length 3*hidden. -/
structure TorchGRUW where
  w_ih : Tensor2
  w_hh : Tensor2
  b_ih : Tensor1
  b_hh : Tensor1

/-- torch's GRU cell (documented semantics of nn.GRU): reset gate r,
update gate z, candidate n with the reset gate applied to the hidden
projection, and h' = (1-z)*n + z*h. -/
def torchGRUCell (E : Engine) (hidden : ℕ) (w : TorchGRUW) (input hx : Tensor2) : Tensor2 :=
  let gi := linear input w.w_ih (some w.b_ih)
  let gh := linear hx w.w_hh (some w.b_hh)
  let r := map2 E.sigmoid (add2 (slice2 gi 0 hidden) (slice2 gh 0 hidden))
  let z := map2 E.sigmoid (add2 (slice2 gi hidden hidden) (slice2 gh hidden hidden))
  let n := map2 E.tanh (add2 (slice2 gi (2 * hidden) hidden)
    (mul2 r (slice2 gh (2 * hidden) hidden)))
  add2 (mul2 (oneMinus2 z) n) (mul2 z hx)

/-- One direction of a torch GRU layer over a list of timestep slices,
collecting the hidden state after every step. -/
def torchGRURunDir (E : Engine) (hidden : ℕ) (w : TorchGRUW) :
    List Tensor2 → Tensor2 → List Tensor2
  | [], _ => []
  | inp :: rest, hx =>
    let hx2 := torchGRUCell E hidden w inp hx
    hx2 :: torchGRURunDir E hidden w rest hx2

/-- One bidirectional torch GRU layer with batch_first layout: the
reverse direction consumes the time-reversed sequence and its outputs
are reversed back before the per-timestep feature concatenation. -/
def torchGRULayer (E : Engine) (hidden : ℕ) (wF wB : TorchGRUW) (x : Tensor3)
    (h0F h0B : Tensor2) : Tensor3 :=
  let xs := (List.range x.n1).map (sliceTime x)
  let fouts := torchGRURunDir E hidden wF xs h0F
  let bouts := (torchGRURunDir E hidden wB xs.reverse h0B).reverse
  cat3dim1 ((fouts.zip bouts).map (fun p => unsqueeze1 (cat2dim1 p.1 p.2)))

/-- The stacked layers of a bidirectional torch GRU; layer l reads its
initial hidden states from rows 2*l and 2*l+1 of the given h0. -/
def torchBiGRULoop (E : Engine) (hidden : ℕ) (ws : ℕ → ℕ → TorchGRUW) (h0 : Tensor3) :
    List ℕ → Tensor3 → Tensor3
  | [], x => x
  | l :: rest, x =>
    let y := torchGRULayer E hidden (ws l 0) (ws l 1) x
      (sliceDim0 h0 (2 * l)) (sliceDim0 h0 (2 * l + 1))
    torchBiGRULoop E hidden ws h0 rest y

/-- nn.GRU(hidden, hidden, num_layers, batch_first=True,
bidirectional=True) applied to (x, h0), returning the output sequence. -/
def torchBiGRU (E : Engine) (hidden layers : ℕ) (ws : ℕ → ℕ → TorchGRUW)
    (x : Tensor3) (h0 : Tensor3) : Tensor3 :=
  torchBiGRULoop E hidden ws h0 (List.range layers) x

/-! ## CBHG (src/models/modules.py lines 76-176) -/

/-- An nn.Conv1d module: weight (out_channels, in_channels, kernel),
bias (out_channels), and its configured padding. -/
structure ConvM where
  weight : Tensor3
  bias : Tensor1
  padding : ℕ

/-- Conv1d application. -/
def ConvM.forward (c : ConvM) (x : Tensor3) : Tensor3 :=
  conv1dF x c.weight c.bias c.padding

/-- An nn.BatchNorm1d module (affine, with running statistics). -/
structure BNM where
  weight : Tensor1
  bias : Tensor1
  running_mean : Tensor1
  running_var : Tensor1
  eps : ℚ

/-- A freshly constructed nn.BatchNorm1d(n): weight ones, bias zeros,
running mean zeros, running variance ones, default eps. -/
def BNM.std (n : ℕ) : BNM :=
  ⟨mk1 n (fun _ => 1), mk1 n (fun _ => 0), mk1 n (fun _ => 0), mk1 n (fun _ => 1), 1 / 100000⟩

/-- nn.BatchNorm1d on a (B, C, L) tensor: normalize each channel by the
batch statistics over batch and length in training mode, or by the
stored running statistics in eval mode, then apply the affine scale and
shift. (The running-statistic update of these stateless-by-claim CBHG
norms is not observed by any property and is omitted from the returned
value.) -/
def BNM.forward (E : Engine) (training : Bool) (bn : BNM) (x : Tensor3) : Tensor3 :=
  if training then
    let cnt : ℚ := ((x.n0 * x.n2 : ℕ) : ℚ)
    let mu : ℕ → ℚ := fun c =>
      (Finset.sum (Finset.range x.n0) (fun b =>
        Finset.sum (Finset.range x.n2) (fun l => x.data b c l))) / cnt
    let v : ℕ → ℚ := fun c =>
      (Finset.sum (Finset.range x.n0) (fun b =>
        Finset.sum (Finset.range x.n2) (fun l => (x.data b c l - mu c) ^ 2))) / cnt
    mk3 x.n0 x.n1 x.n2 (fun b c l =>
      (x.data b c l - mu c) / E.sqrt (v c + bn.eps) * bn.weight.data c + bn.bias.data c)
  else
    mk3 x.n0 x.n1 x.n2 (fun b c l =>
      (x.data b c l - bn.running_mean.data c) / E.sqrt (bn.running_var.data c + bn.eps) *
        bn.weight.data c + bn.bias.data c)

/-- CBHG._conv_fit_dim: drop the trailing timestep after an even-kernel
convolution. -/
def convFitDim (x : Tensor3) (kernel_size : ℕ) : Tensor3 :=
  if kernel_size % 2 = 0 then trimLast x else x

/-- The CBHG module state. -/
structure CBHGM where
  hidden_size : ℕ
  K : ℕ
  projection_size : ℕ
  num_gru_layers : ℕ
  max_pool_kernel_size : ℕ
  convbank : ℕ → ConvM
  batchnorms : ℕ → BNM
  conv_projection_1 : ConvM
  conv_projection_2 : ConvM
  batchnorm_proj_1 : BNM
  batchnorm_proj_2 : BNM
  highway : HighwayM
  gru : ℕ → ℕ → TorchGRUW

/-- The random parameter draws consumed by the CBHG constructor. -/
structure CBHGDraw where
  convW : ℕ → ℕ → ℕ → ℕ → ℚ
  convB : ℕ → ℕ → ℚ
  proj1W : ℕ → ℕ → ℕ → ℚ
  proj1B : ℕ → ℚ
  proj2W : ℕ → ℕ → ℕ → ℚ
  proj2B : ℕ → ℚ
  hwLinW : ℕ → ℕ → ℕ → ℚ
  hwLinB : ℕ → ℕ → ℚ
  hwGateW : ℕ → ℕ → ℕ → ℚ
  hwGateB : ℕ → ℕ → ℚ
  gruWih : ℕ → ℕ → ℕ → ℕ → ℚ
  gruWhh : ℕ → ℕ → ℕ → ℕ → ℚ
  gruBih : ℕ → ℕ → ℕ → ℚ
  gruBhh : ℕ → ℕ → ℕ → ℚ

/-- The CBHG constructor: a bank of K Conv1d modules with kernel sizes
1..K and padding floor(k/2) (list index i holds kernel i+1), K batch
norms of width hidden, the two projection convolutions (kernel 3,
padding 1) to hidden*2 and back to hidden with their batch norms, the
max-pool configuration, a Highwaynet of hidden units, and a
bidirectional nn.GRU(hidden, hidden). -/
def CBHG.init (hidden_size K projection_size num_highway_blocks num_gru_layers
    max_pool_kernel_size : ℕ) (θ : CBHGDraw) : CBHGM :=
  { hidden_size := hidden_size
    K := K
    projection_size := projection_size
    num_gru_layers := num_gru_layers
    max_pool_kernel_size := max_pool_kernel_size
    convbank := fun i =>
      ⟨mk3 hidden_size hidden_size (i + 1) (θ.convW i), mk1 hidden_size (θ.convB i),
       (i + 1) / 2⟩
    batchnorms := fun _ => BNM.std hidden_size
    conv_projection_1 :=
      ⟨mk3 (hidden_size * 2) (hidden_size * K) 3 θ.proj1W, mk1 (hidden_size * 2) θ.proj1B, 1⟩
    conv_projection_2 :=
      ⟨mk3 hidden_size (hidden_size * 2) 3 θ.proj2W, mk1 hidden_size θ.proj2B, 1⟩
    batchnorm_proj_1 := BNM.std (hidden_size * 2)
    batchnorm_proj_2 := BNM.std hidden_size
    highway := Highway.init hidden_size num_highway_blocks θ.hwLinW θ.hwLinB θ.hwGateW θ.hwGateB
    gru := fun l d =>
      ⟨mk2 (3 * hidden_size) (if l = 0 then hidden_size else 2 * hidden_size) (θ.gruWih l d),
       mk2 (3 * hidden_size) hidden_size (θ.gruWhh l d),
       mk1 (3 * hidden_size) (θ.gruBih l d),
       mk1 (3 * hidden_size) (θ.gruBhh l d)⟩ }

/-- The convolution bank loop of CBHG.forward (lines 144-150):
`convbank_input` is reassigned to each stage's output, so every
convolution consumes the previous stage's output, and every stage
output is appended to `convbank_list`. -/
def cbhgBankLoop (E : Engine) (training : Bool) (m : CBHGM) (ks : List ℕ)
    (st : Tensor3 × List Tensor3) : Tensor3 × List Tensor3 :=
  match ks with
  | [] => st
  | k :: rest =>
    let out := BNM.forward E training (m.batchnorms k)
      (relu3 (contiguous3 (convFitDim ((m.convbank k).forward st.1) (k + 1))))
    cbhgBankLoop E training m rest (out, st.2 ++ [out])

/-- Line 153 of CBHG.forward: the bank stage outputs concatenated along
the feature (channel) axis. -/
def cbhgConvCat (E : Engine) (training : Bool) (m : CBHGM) (input_ : Tensor3) : Tensor3 :=
  cat3dim1 (cbhgBankLoop E training m (List.range m.K) (input_, [])).2

/-- CBHG.forward (lines 139-176): convolution bank, feature
concatenation, max pooling with a trailing trim, the two projection
convolutions (the first one's normalized output is the style feature),
residual addition of the input, Highwaynet, transposition to
batch-time-feature layout and the bidirectional GRU over a
zero-initialized hidden state, whose output sequence is the content
feature. -/
def CBHG.forward (E : Engine) (training : Bool) (m : CBHGM) (input0 : Tensor3) :
    Tensor3 × Tensor3 :=
  let input_ := contiguous3 input0
  let batch_size := input_.n0
  let conv_cat0 := cbhgConvCat E training m input_
  let conv_cat := trimLast (maxPool1dPad1 conv_cat0 m.max_pool_kernel_size)
  let style_feature := BNM.forward E training m.batchnorm_proj_1
    (relu3 (convFitDim (m.conv_projection_1.forward conv_cat) 3))
  let conv_proj := add3
    (BNM.forward E training m.batchnorm_proj_2
      (convFitDim (m.conv_projection_2.forward style_feature) 3)) input_
  let highway := HighwayM.forward E m.highway conv_proj
  let highway2 := transpose12 highway
  let init_gru := zeros3 (2 * m.num_gru_layers) batch_size m.hidden_size
  let content_feature := torchBiGRU E m.hidden_size m.num_gru_layers m.gru highway2 init_gru
  (content_feature, style_feature)

/-- The MinimalGRU module state after a forward call: a Python
exception propagates before any state assignment, leaving the module
unchanged. -/
def MinimalGRU.forwardState (E : Engine) (m : MinimalGRUM) (training : Bool)
    (dropFn : ℕ → Tensor1 → Tensor1) (x : Tensor3) (hx : Tensor3) (time_dim : ℕ) :
    MinimalGRUM :=
  match MinimalGRU.forward E m training dropFn x hx time_dim with
  | Except.ok p => p.2
  | Except.error _ => m

/-! ## Spec-side definitions for the refinement claims -/

/-- Modelled from the spec (claim C2's wording): the chained convolution
bank recurrence, convbank_input₀ = input and
convbank_inputₖ = BN(ReLU(Conv_k(convbank_inputₖ₋₁))) for k = 1..K,
with the even-kernel trailing trim. -/
def chainedBankSpec (E : Engine) (training : Bool) (m : CBHGM) (input_ : Tensor3) :
    ℕ → Tensor3
  | 0 => input_
  | k + 1 => BNM.forward E training (m.batchnorms k)
      (relu3 (contiguous3 (convFitDim
        ((m.convbank k).forward (chainedBankSpec E training m input_ k)) (k + 1))))

/-- Modelled from the spec (claim C3's wording): the per-timestep
normalization of one gate half, selecting the statistics of the clamped
timestep index. -/
def sbnApplySpec (E : Engine) (s : SBN) (training : Bool) (input_ : Tensor2) (t : ℕ) :
    Tensor2 × SBN :=
  SBN.bnStep E s training input_ (if s.max_length ≤ t then s.max_length - 1 else t)

/-- Modelled from the spec (claim C3's wording): one hidden-state
update, gates = linear(x_t; w_ih, b_ih) + linear(h_prev; w_hh, b_hh)
with each half optionally normalized per-timestep before summing, then
multiplied by the dropout mask; u = sigmoid(gates half 0),
o = nonlinearity(gates half 1), and h_t = u*h_prev + (1-u)*o. -/
def gruCellSpec (E : Engine) (nonlinearity : String) (is_norm training : Bool)
    (w_ih w_hh : Tensor2) (b_ih b_hh : Option Tensor1) (mask : Option Tensor1)
    (st : Tensor2 × SBN × SBN) (input : Tensor2) (t : ℕ) : Tensor2 × SBN × SBN :=
  let h_prev := st.1
  let inp := if is_norm then sbnApplySpec E st.2.1 training (linear input w_ih b_ih) t
    else (linear input w_ih b_ih, st.2.1)
  let hp := if is_norm then sbnApplySpec E st.2.2 training (linear h_prev w_hh b_hh) t
    else (linear h_prev w_hh b_hh, st.2.2)
  let gates0 := add2 inp.1 hp.1
  let gates :=
    match mask with
    | some mv => rowScale gates0 mv
    | none => gates0
  let u := map2 E.sigmoid (chunk2 gates).1
  let o := applyAct E nonlinearity (chunk2 gates).2
  (add2 (mul2 u h_prev) (mul2 (oneMinus2 u) o), inp.2, hp.2)

/-- Modelled from the spec (claim C3's wording): the hidden-state
sequence h_0, h_1, ... obtained by iterating the claim's update formula
over the timestep slices of the input. -/
def gruSeqSpec (E : Engine) (nonlinearity : String) (is_norm training : Bool)
    (w_ih w_hh : Tensor2) (b_ih b_hh : Option Tensor1) (mask : Option Tensor1)
    (x : Tensor3) (init : Tensor2 × SBN × SBN) : ℕ → Tensor2 × SBN × SBN
  | 0 => init
  | t + 1 => gruCellSpec E nonlinearity is_norm training w_ih w_hh b_ih b_hh mask
      (gruSeqSpec E nonlinearity is_norm training w_ih w_hh b_ih b_hh mask x init t)
      (sliceTime x t) t

/-! ## Predicates used by the statements and proofs -/

/-- All entries of a 1-D tensor are zero. -/
def Zero1 (x : Tensor1) : Prop := ∀ i, x.data i = 0

/-- All entries of a 2-D tensor are zero. -/
def Zero2 (x : Tensor2) : Prop := ∀ i j, x.data i j = 0

/-- All entries of a 3-D tensor are zero. -/
def Zero3 (x : Tensor3) : Prop := ∀ i j k, x.data i j k = 0

/-- Every per-timestep buffer of the norm module has width F. -/
def SBNFeat (s : SBN) (F : ℕ) : Prop := ∀ i, (s.running_mean i).n0 = F

/-- The norm module can be applied without error to gate tensors of
width F: registered buffers of width F and at least one timestep. -/
def SBNReady (s : SBN) (F : ℕ) : Prop := SBNFeat s F ∧ 1 ≤ s.max_length

/-- The norm module is affine with an all-zero scale and shift. -/
def SBNZeroAffine (s : SBN) : Prop := s.affine = true ∧ Zero1 s.weight ∧ Zero1 s.bias

/-- Every slot's norm modules are ready for that slot's gate widths. -/
def GRUNormReady (m : MinimalGRUM) : Prop :=
  ∀ idx, SBNReady (m.i_norm idx) ((m.slots idx).w_ih.n0) ∧
    SBNReady (m.h_norm idx) ((m.slots idx).w_hh.n0)

/-- Every slot's gate projections have row count gs. -/
def GRUGate (m : MinimalGRUM) (gs : ℕ) : Prop :=
  ∀ idx, (m.slots idx).w_ih.n0 = gs ∧ (m.slots idx).w_hh.n0 = gs

/-- All learnable weights of the module are zero: both gate projections
and both biases of every slot, and the affine parameters of every norm
module. -/
def GRUZeroWeights (m : MinimalGRUM) : Prop :=
  ∀ idx, Zero2 (m.slots idx).w_ih ∧ Zero2 (m.slots idx).w_hh ∧
    Zero1 (m.slots idx).b_ih ∧ Zero1 (m.slots idx).b_hh ∧
    SBNZeroAffine (m.i_norm idx) ∧ SBNZeroAffine (m.h_norm idx)

/-- The fields of the module other than the norm statistics. -/
def sameStatics (m m2 : MinimalGRUM) : Prop :=
  m2.input_size = m.input_size ∧ m2.hidden_size = m.hidden_size ∧
    m2.max_len = m.max_len ∧ m2.num_layers = m.num_layers ∧
    m2.num_directions = m.num_directions ∧ m2.bias = m.bias ∧
    m2.dropout = m.dropout ∧ m2.nonlinearity = m.nonlinearity ∧
    m2.is_norm = m.is_norm ∧ m2.slots = m.slots

/-! ## Concrete fixtures used by the witnesses -/

/-- A concrete engine instantiation of the black-box scalar functions
(the identity, which satisfies tanh 0 = 0). -/
def E0 : Engine := ⟨fun q => q, fun q => q, fun q => q⟩

/-- All-zero parameter draws for MinimalGRU. -/
def zeroGRUDraw : MinimalGRUDraw :=
  ⟨fun _ _ _ => 0, fun _ _ _ => 0, fun _ _ => 0, fun _ _ => 0, fun _ _ _ => 0⟩

/-- All-zero parameter draws for CBHG. -/
def zeroCBHGDraw : CBHGDraw :=
  ⟨fun _ _ _ _ => 0, fun _ _ => 0, fun _ _ _ => 0, fun _ => 0, fun _ _ _ => 0, fun _ => 0,
   fun _ _ _ => 0, fun _ _ => 0, fun _ _ _ => 0, fun _ _ => 0,
   fun _ _ _ _ => 0, fun _ _ _ _ => 0, fun _ _ _ => 0, fun _ _ _ => 0⟩

/-- A small concrete MinimalGRU module (input 4, hidden 8, max_len 5,
one unidirectional layer, relu, normalized) with all-zero draws. -/
def mgruTest : MinimalGRUM :=
  MinimalGRU.initModule 4 8 5 1 false true 0 "relu" true zeroGRUDraw

/-- A concrete rational test tensor of shape (3, 5, 4). -/
def xTest354 : Tensor3 := mk3 3 5 4 (fun i j k => (i : ℚ) + j - k / 2)

/-- A concrete rational test matrix of shape (2, 3). -/
def xTest23 : Tensor2 := mk2 2 3 (fun i j => (i : ℚ) * 2 + j)

/-- A concrete rational test matrix of shape (2, 4). -/
def xTest24 : Tensor2 := mk2 2 4 (fun i j => (i : ℚ) - j)

/-- A concrete SeparatedBatchNorm1d module with 3 features over 2
timesteps. -/
def sbnTest : SBN := SBN.init 3 2 (1 / 100000) (1 / 10) true (fun _ => 0)

/-- A concrete rational test tensor of shape (2, 4, 5). -/
def yTest245 : Tensor3 := mk3 2 4 5 (fun i j k => (i : ℚ) + j * k)

/-- A concrete SeqLinear (4 → 2) with time_dim 1 and zero draws. -/
def slTest1 : SeqLinearM := SeqLinear.init 4 2 1 (fun _ _ => 0) (fun _ => 0)

/-- A concrete SeqLinear (4 → 2) with time_dim 2 and zero draws. -/
def slTest2 : SeqLinearM := SeqLinear.init 4 2 2 (fun _ _ => 0) (fun _ => 0)

/-- A concrete zero gate projection of shape (4, 3). -/
def w43 : Tensor2 := mk2 4 3 (fun _ _ => 0)

/-- A concrete zero gate projection of shape (4, 2). -/
def w42 : Tensor2 := mk2 4 2 (fun _ _ => 0)

/-- A concrete SeparatedBatchNorm1d module with 4 features over 2
timesteps. -/
def sbn4 : SBN := SBN.init 4 2 (1 / 100000) (1 / 10) true (fun _ => 0)

/-! ## Theorems -/

/-- C6: the MinimalGRU constructor raises a validation error if and
only if the dropout probability is outside [0,1] or the nonlinearity
name is neither 'relu' nor 'tanh'; for every configuration with dropout
in [0,1] and a supported nonlinearity, construction succeeds. -/
theorem C6_minimalgru_init_validation (input_size hidden_size max_len num_layers : ℕ)
    (is_bidirection bias : Bool) (dropout : ℚ) (nonlinearity : String) (is_norm : Bool)
    (θ : MinimalGRUDraw) :
    (∃ e, MinimalGRU.init input_size hidden_size max_len num_layers is_bidirection bias
        dropout nonlinearity is_norm θ = Except.error e) ↔
      (dropout < 0 ∨ 1 < dropout ∨ (nonlinearity ≠ "relu" ∧ nonlinearity ≠ "tanh")) := by
  by_cases h1 : dropout < 0 ∨ 1 < dropout
  · simp only [MinimalGRU.init, if_pos h1]
    refine ⟨fun _ => ?_, fun _ => ⟨_, rfl⟩⟩
    rcases h1 with h1 | h1
    · exact Or.inl h1
    · exact Or.inr (Or.inl h1)
  · by_cases h2 : nonlinearity = "relu" ∨ nonlinearity = "tanh"
    · simp only [MinimalGRU.init, if_neg h1, if_pos h2]
      constructor
      · rintro ⟨e, he⟩
        exact absurd he (by simp)
      · rintro (h | h | h)
        · exact absurd h (by tauto)
        · exact absurd (Or.inr h) h1
        · rcases h2 with h2 | h2 <;> exact absurd h2 (by tauto)
    · simp only [MinimalGRU.init, if_neg h1, if_neg h2]
      constructor
      · intro _
        refine Or.inr (Or.inr ⟨?_, ?_⟩) <;> intro hc <;> exact h2 (by simp [hc])
      · intro _
        exact ⟨_, rfl⟩

/-- C10: MinimalGRU.forward asserts time_dim == 1 at entry; every call
with time_dim ≠ 1 fails at this assertion before any computation or
state change, so the time axis cannot be reconfigured. -/
theorem C10_minimalgru_time_dim_assert (E : Engine) (m : MinimalGRUM) (training : Bool)
    (dropFn : ℕ → Tensor1 → Tensor1) (x hx : Tensor3) (time_dim : ℕ)
    (h : time_dim ≠ 1) :
    MinimalGRU.forward E m training dropFn x hx time_dim =
        Except.error PyError.assertionError ∧
      MinimalGRU.forwardState E m training dropFn x hx time_dim = m := by
  have hf : MinimalGRU.forward E m training dropFn x hx time_dim =
      Except.error PyError.assertionError := by
    unfold MinimalGRU.forward
    simp [h]
  exact ⟨hf, by unfold MinimalGRU.forwardState; rw [hf]⟩

/-- Witness for C10 at time_dim = 2 on a concrete module and input. -/
theorem C10_minimalgru_time_dim_assert_witness :
    (2 : ℕ) ≠ 1 ∧
      (MinimalGRU.forward E0 mgruTest true (fun _ v => v) xTest354 (zeros3 1 3 8) 2 =
          Except.error PyError.assertionError ∧
        MinimalGRU.forwardState E0 mgruTest true (fun _ v => v) xTest354 (zeros3 1 3 8) 2 =
          mgruTest) :=
  ⟨by decide,
   C10_minimalgru_time_dim_assert E0 mgruTest true (fun _ v => v) xTest354 (zeros3 1 3 8) 2
     (by decide)⟩

/-- C7: SeparatedBatchNorm1d.forward raises a validation error whenever
the input's feature-axis size differs from the configured num_features,
performing no normalization (the module state is unchanged); when the
sizes match, the dimension check passes. -/
theorem C7_sbn_feature_check (E : Engine) (num_features max_length : ℕ)
    (eps momentum : ℚ) (affine : Bool) (wdraw : ℕ → ℚ) (training : Bool)
    (bad good : Tensor2) (time : ℤ) (hml : 1 ≤ max_length)
    (hbad : bad.n1 ≠ num_features) (hgood : good.n1 = num_features) :
    SBN.forward E (SBN.init num_features max_length eps momentum affine wdraw) training bad
        time =
      Except.error (PyError.valueError
        ("got " ++ toString bad.n1 ++ "-feature tensor, expected " ++
          toString num_features)) ∧
    SBN.forwardState E (SBN.init num_features max_length eps momentum affine wdraw) training
        bad time =
      SBN.init num_features max_length eps momentum affine wdraw ∧
    SBN.checkInputDim (SBN.init num_features max_length eps momentum affine wdraw) good =
      Except.ok () := by
  have h0 : max_length ≠ 0 := by omega
  have hchk : SBN.checkInputDim (SBN.init num_features max_length eps momentum affine wdraw)
      bad =
      Except.error (PyError.valueError
        ("got " ++ toString bad.n1 ++ "-feature tensor, expected " ++
          toString num_features)) := by
    unfold SBN.checkInputDim SBN.init
    simp [h0, mk1, hbad]
  have hfwd : SBN.forward E (SBN.init num_features max_length eps momentum affine wdraw)
      training bad time =
      Except.error (PyError.valueError
        ("got " ++ toString bad.n1 ++ "-feature tensor, expected " ++
          toString num_features)) := by
    unfold SBN.forward
    rw [hchk]
  refine ⟨hfwd, ?_, ?_⟩
  · unfold SBN.forwardState
    rw [hfwd]
  · unfold SBN.checkInputDim SBN.init
    simp [h0, mk1, hgood]

/-- Witness for C7 on a 4-feature input against a 3-feature module. -/
theorem C7_sbn_feature_check_witness :
    1 ≤ 2 ∧ xTest24.n1 ≠ 3 ∧ xTest23.n1 = 3 ∧
      (SBN.forward E0 (SBN.init 3 2 (1 / 100000) (1 / 10) true (fun _ => 0)) false xTest24
          5 =
        Except.error (PyError.valueError
          ("got " ++ toString xTest24.n1 ++ "-feature tensor, expected " ++ toString 3)) ∧
      SBN.forwardState E0 (SBN.init 3 2 (1 / 100000) (1 / 10) true (fun _ => 0)) false
          xTest24 5 =
        SBN.init 3 2 (1 / 100000) (1 / 10) true (fun _ => 0) ∧
      SBN.checkInputDim (SBN.init 3 2 (1 / 100000) (1 / 10) true (fun _ => 0)) xTest23 =
        Except.ok ()) :=
  ⟨by decide, by decide, by decide,
   C7_sbn_feature_check E0 3 2 (1 / 100000) (1 / 10) true (fun _ => 0) false xTest24 xTest23
     5 (by decide) (by decide) (by decide)⟩

/-- C9: the timestep index is clamped only at the upper end; a negative
time index is not clamped to 0, and the call fails with an
attribute-lookup error while resolving the running-statistics buffer,
performing no normalization and leaving all buffers unchanged. -/
theorem C9_sbn_negative_time (E : Engine) (num_features max_length : ℕ)
    (eps momentum : ℚ) (affine : Bool) (wdraw : ℕ → ℚ) (training : Bool)
    (input_ : Tensor2) (time : ℤ) (hml : 1 ≤ max_length)
    (hfeat : input_.n1 = num_features) (hneg : time < 0) :
    SBN.forward E (SBN.init num_features max_length eps momentum affine wdraw) training
        input_ time =
      Except.error (PyError.attributeError ("running_mean_" ++ toString time)) ∧
    SBN.forwardState E (SBN.init num_features max_length eps momentum affine wdraw) training
        input_ time =
      SBN.init num_features max_length eps momentum affine wdraw := by
  have h0 : max_length ≠ 0 := by omega
  have hchk : SBN.checkInputDim (SBN.init num_features max_length eps momentum affine wdraw)
      input_ = Except.ok () := by
    unfold SBN.checkInputDim SBN.init
    simp [h0, mk1, hfeat]
  have hclamp : ¬ ((max_length : ℤ) ≤ time) := by omega
  have hfwd : SBN.forward E (SBN.init num_features max_length eps momentum affine wdraw)
      training input_ time =
      Except.error (PyError.attributeError ("running_mean_" ++ toString time)) := by
    unfold SBN.forward
    rw [hchk]
    have hproj : (SBN.init num_features max_length eps momentum affine wdraw).max_length =
        max_length := rfl
    rw [hproj]
    simp only [if_neg hclamp, if_pos hneg]
  exact ⟨hfwd, by unfold SBN.forwardState; rw [hfwd]⟩

/-- Witness for C9 at time = -3 on a matching 3-feature input. -/
theorem C9_sbn_negative_time_witness :
    1 ≤ 2 ∧ xTest23.n1 = 3 ∧ (-3 : ℤ) < 0 ∧
      (SBN.forward E0 (SBN.init 3 2 (1 / 100000) (1 / 10) true (fun _ => 0)) true xTest23
          (-3) =
        Except.error (PyError.attributeError ("running_mean_" ++ toString (-3 : ℤ))) ∧
      SBN.forwardState E0 (SBN.init 3 2 (1 / 100000) (1 / 10) true (fun _ => 0)) true
          xTest23 (-3) =
        SBN.init 3 2 (1 / 100000) (1 / 10) true (fun _ => 0)) :=
  ⟨by decide, by decide, by decide,
   C9_sbn_negative_time E0 3 2 (1 / 100000) (1 / 10) true (fun _ => 0) true xTest23 (-3)
     (by decide) (by decide) (by decide)⟩

/-- C4: the running-statistics buffers at a timestep index
i < max_length-1 are left unchanged by every forward call made with a
timestep index j ≠ i; every call with time ≥ max_length reads and (in
training mode) updates exactly the buffers at index max_length-1: it
behaves identically to a call at max_length-1, and in training mode it
writes the exponential-moving-average update into that index's buffer. -/
theorem C4_sbn_buffer_frame (E : Engine) (s : SBN) (training : Bool)
    (input_ input2 : Tensor2) (i : ℕ) (j time2 : ℤ)
    (hi : i < s.max_length - 1) (hj : j ≠ (i : ℤ))
    (htime2 : (s.max_length : ℤ) ≤ time2) (hml : 1 ≤ s.max_length)
    (hfeat : input2.n1 = (s.running_mean 0).n0) :
    ((SBN.forwardState E s training input_ j).running_mean i = s.running_mean i ∧
      (SBN.forwardState E s training input_ j).running_var i = s.running_var i) ∧
    SBN.forward E s training input2 time2 =
      SBN.forward E s training input2 ((s.max_length : ℤ) - 1) ∧
    (SBN.forwardState E s true input2 time2).running_mean (s.max_length - 1) =
      mk1 ((s.running_mean (s.max_length - 1)).n0)
        (fun c => (1 - s.momentum) * (s.running_mean (s.max_length - 1)).data c +
          s.momentum *
            ((Finset.sum (Finset.range input2.n0) (fun b => input2.data b c)) /
              (input2.n0 : ℚ))) := by
  have hclamp_eq : (if (s.max_length : ℤ) ≤ time2 then (s.max_length : ℤ) - 1 else time2) =
      (if (s.max_length : ℤ) ≤ (s.max_length : ℤ) - 1 then (s.max_length : ℤ) - 1
        else (s.max_length : ℤ) - 1) := by
    rw [if_pos htime2, if_neg (by omega)]
  refine ⟨?_, ?_, ?_⟩
  · -- frame part: any call with index j ≠ i leaves buffers at i alone
    unfold SBN.forwardState SBN.forward
    cases hc : SBN.checkInputDim s input_ with
    | error e => simp
    | ok u =>
      simp only
      by_cases hneg : (if (s.max_length : ℤ) ≤ j then (s.max_length : ℤ) - 1 else j) < 0
      · rw [if_pos hneg]
        exact ⟨rfl, rfl⟩
      · rw [if_neg hneg]
        have hti : (if (s.max_length : ℤ) ≤ j then (s.max_length : ℤ) - 1 else j).toNat ≠
            i := by
          by_cases hle : (s.max_length : ℤ) ≤ j
          · rw [if_pos hle]
            omega
          · rw [if_neg hle] at hneg ⊢
            omega
        unfold SBN.bnStep
        cases training with
        | false => simp
        | true =>
          simp only [if_pos rfl, Bool.true_eq]
          constructor
          · simp only [if_true]
            simp
            intro h
            exact absurd h.symm hti
          · simp only [if_true]
            simp
            intro h
            exact absurd h.symm hti
  · -- a call at time ≥ max_length equals the call at max_length - 1
    unfold SBN.forward
    cases hc : SBN.checkInputDim s input2 with
    | error e => rfl
    | ok u =>
      simp only
      rw [hclamp_eq]
  · -- training mode writes the EMA update into index max_length - 1
    unfold SBN.forwardState SBN.forward
    have hchk : SBN.checkInputDim s input2 = Except.ok () := by
      unfold SBN.checkInputDim
      rw [if_neg (by omega), if_neg (by omega)]
    rw [hchk]
    simp only
    have hcl : (if (s.max_length : ℤ) ≤ time2 then (s.max_length : ℤ) - 1 else time2) =
        (s.max_length : ℤ) - 1 := if_pos htime2
    rw [hcl]
    rw [if_neg (by omega : ¬ ((s.max_length : ℤ) - 1 < 0))]
    have htn : ((s.max_length : ℤ) - 1).toNat = s.max_length - 1 := by omega
    unfold SBN.bnStep
    rw [htn]
    simp

/-- Witness for C4 on a concrete module, with buffer index 0, a call at
index 5 and a call at index 7 ≥ max_length = 2. -/
theorem C4_sbn_buffer_frame_witness :
    0 < sbnTest.max_length - 1 ∧ (5 : ℤ) ≠ (0 : ℕ) ∧
      (sbnTest.max_length : ℤ) ≤ 7 ∧ 1 ≤ sbnTest.max_length ∧
      xTest23.n1 = (sbnTest.running_mean 0).n0 ∧
      (((SBN.forwardState E0 sbnTest false xTest24 5).running_mean 0 =
          sbnTest.running_mean 0 ∧
        (SBN.forwardState E0 sbnTest false xTest24 5).running_var 0 =
          sbnTest.running_var 0) ∧
      SBN.forward E0 sbnTest false xTest23 7 =
        SBN.forward E0 sbnTest false xTest23 ((sbnTest.max_length : ℤ) - 1) ∧
      (SBN.forwardState E0 sbnTest true xTest23 7).running_mean (sbnTest.max_length - 1) =
        mk1 ((sbnTest.running_mean (sbnTest.max_length - 1)).n0)
          (fun c => (1 - sbnTest.momentum) *
              (sbnTest.running_mean (sbnTest.max_length - 1)).data c +
            sbnTest.momentum *
              ((Finset.sum (Finset.range xTest23.n0) (fun b => xTest23.data b c)) /
                (xTest23.n0 : ℚ)))) :=
  ⟨by decide, by decide, by decide, by decide, by decide,
   C4_sbn_buffer_frame E0 sbnTest false xTest24 xTest23 0 5 7 (by decide) (by decide)
     (by decide) (by decide) (by decide)⟩

/-- Helper: output shape of a SeqLinear with time_dim = 1 on a 3-axis
input whose trailing axis matches input_size. -/
theorem seqLinear_time1_shape (ins outs : ℕ) (wd : ℕ → ℕ → ℚ) (bd : ℕ → ℚ)
    (x : Tensor3) (hx2 : x.n2 = ins) (hx0 : 0 < x.n0) (hins : 0 < ins)
    (houts : 0 < outs) :
    ((SeqLinear.init ins outs 1 wd bd).forward x).n0 = x.n0 ∧
      ((SeqLinear.init ins outs 1 wd bd).forward x).n1 = x.n1 ∧
      ((SeqLinear.init ins outs 1 wd bd).forward x).n2 = outs := by
  refine ⟨rfl, ?_, rfl⟩
  show x.n0 * x.n1 * x.n2 / ins * outs / (x.n0 * outs) = x.n1
  rw [hx2, Nat.mul_div_cancel _ hins]
  have h : x.n0 * x.n1 * outs = x.n1 * (x.n0 * outs) := by ring
  rw [h, Nat.mul_div_cancel _ (Nat.mul_pos hx0 houts)]

/-- C8: SeqLinear.forward resizes the feature axis to output_size and
preserves batch and time axes in both time-axis conventions, and the
time_dim=2 forward equals transposing axes 1 and 2 around a time_dim=1
forward of the transposed input. -/
theorem C8_seqlinear_shape_transpose (ins outs : ℕ) (wd : ℕ → ℕ → ℚ) (bd : ℕ → ℚ)
    (x y : Tensor3) (hx2 : x.n2 = ins) (hy1 : y.n1 = ins) (hx0 : 0 < x.n0)
    (hy0 : 0 < y.n0) (hins : 0 < ins) (houts : 0 < outs) :
    (((SeqLinear.init ins outs 1 wd bd).forward x).n0 = x.n0 ∧
      ((SeqLinear.init ins outs 1 wd bd).forward x).n1 = x.n1 ∧
      ((SeqLinear.init ins outs 1 wd bd).forward x).n2 = outs) ∧
    (((SeqLinear.init ins outs 2 wd bd).forward y).n0 = y.n0 ∧
      ((SeqLinear.init ins outs 2 wd bd).forward y).n1 = outs ∧
      ((SeqLinear.init ins outs 2 wd bd).forward y).n2 = y.n2) ∧
    (SeqLinear.init ins outs 2 wd bd).forward y =
      transpose12 ((SeqLinear.init ins outs 1 wd bd).forward (transpose12 y)) := by
  have hcomm : (SeqLinear.init ins outs 2 wd bd).forward y =
      transpose12 ((SeqLinear.init ins outs 1 wd bd).forward (transpose12 y)) := rfl
  have hinner := seqLinear_time1_shape ins outs wd bd (transpose12 y)
    (by show y.n1 = ins; exact hy1) (by show 0 < y.n0; exact hy0) hins houts
  refine ⟨seqLinear_time1_shape ins outs wd bd x hx2 hx0 hins houts, ⟨?_, ?_, ?_⟩, hcomm⟩
  · rw [hcomm]
    show ((SeqLinear.init ins outs 1 wd bd).forward (transpose12 y)).n0 = y.n0
    exact hinner.1
  · rw [hcomm]
    show ((SeqLinear.init ins outs 1 wd bd).forward (transpose12 y)).n2 = outs
    exact hinner.2.2
  · rw [hcomm]
    show ((SeqLinear.init ins outs 1 wd bd).forward (transpose12 y)).n1 = y.n2
    exact hinner.2.1

/-- Witness for C8 on concrete (3,5,4) and (2,4,5) inputs with
input_size 4 and output_size 2. -/
theorem C8_seqlinear_shape_transpose_witness :
    xTest354.n2 = 4 ∧ yTest245.n1 = 4 ∧ 0 < xTest354.n0 ∧ 0 < yTest245.n0 ∧
      (((slTest1.forward xTest354).n0 = xTest354.n0 ∧
        (slTest1.forward xTest354).n1 = xTest354.n1 ∧
        (slTest1.forward xTest354).n2 = 2) ∧
      ((slTest2.forward yTest245).n0 = yTest245.n0 ∧
        (slTest2.forward yTest245).n1 = 2 ∧
        (slTest2.forward yTest245).n2 = yTest245.n2) ∧
      slTest2.forward yTest245 = transpose12 (slTest1.forward (transpose12 yTest245))) :=
  ⟨by decide, by decide, by decide, by decide,
   C8_seqlinear_shape_transpose 4 2 (fun _ _ => 0) (fun _ => 0) xTest354 yTest245
     (by decide) (by decide) (by decide) (by decide) (by decide) (by decide)⟩

/-- Helper: the bank loop over an index list extended on the right runs
the extra stage on the loop's result. -/
theorem cbhgBankLoop_append (E : Engine) (training : Bool) (m : CBHGM) (ks : List ℕ)
    (k : ℕ) (st : Tensor3 × List Tensor3) :
    cbhgBankLoop E training m (ks ++ [k]) st =
      (let prev := cbhgBankLoop E training m ks st
       let out := BNM.forward E training (m.batchnorms k)
         (relu3 (contiguous3 (convFitDim ((m.convbank k).forward prev.1) (k + 1))))
       (out, prev.2 ++ [out])) := by
  induction ks generalizing st with
  | nil => rfl
  | cons a rest ih =>
    show cbhgBankLoop E training m (rest ++ [k]) _ = _
    rw [ih]
    rfl

/-- Helper: the source's bank loop computes the chained recurrence and
collects the successive chained outputs. -/
theorem cbhgBankLoop_eq_chained (E : Engine) (training : Bool) (m : CBHGM)
    (input_ : Tensor3) (n : ℕ) :
    cbhgBankLoop E training m (List.range n) (input_, []) =
      (chainedBankSpec E training m input_ n,
        (List.range n).map (fun k => chainedBankSpec E training m input_ (k + 1))) := by
  induction n with
  | zero => rfl
  | succ n ih =>
    rw [List.range_succ, cbhgBankLoop_append]
    simp only [ih, List.map_append]
    rfl

/-- C2: the convolution bank in CBHG.forward is chained, not parallel:
with convbank_input_0 = input, stage k computes
convbank_input_k = BN(ReLU(Conv_k(convbank_input_(k-1)))) for k = 1..K
(trimming one trailing timestep for an even kernel), and the K stage
outputs are concatenated along the feature (channel) axis. -/
theorem C2_cbhg_bank_chained (E : Engine) (training : Bool) (m : CBHGM)
    (input_ : Tensor3) :
    chainedBankSpec E training m input_ 0 = input_ ∧
    (∀ k, chainedBankSpec E training m input_ (k + 1) =
      BNM.forward E training (m.batchnorms k)
        (relu3 (contiguous3 (convFitDim
          ((m.convbank k).forward (chainedBankSpec E training m input_ k)) (k + 1))))) ∧
    cbhgConvCat E training m input_ =
      cat3dim1 ((List.range m.K).map (fun k => chainedBankSpec E training m input_ (k + 1))) := by
  refine ⟨rfl, fun k => rfl, ?_⟩
  unfold cbhgConvCat
  rw [cbhgBankLoop_eq_chained]

/-- Helper: an in-range SeparatedBatchNorm1d call at a natural timestep
succeeds and computes the batch-norm step at the clamped index. -/
theorem sbn_forward_nat (E : Engine) (s : SBN) (training : Bool) (input_ : Tensor2)
    (t : ℕ) (hml : 1 ≤ s.max_length) (hfeat : input_.n1 = (s.running_mean 0).n0) :
    SBN.forward E s training input_ (t : ℤ) =
      Except.ok (sbnApplySpec E s training input_ t) := by
  have hchk : SBN.checkInputDim s input_ = Except.ok () := by
    unfold SBN.checkInputDim
    rw [if_neg (by omega), if_neg (by simp [hfeat])]
  unfold SBN.forward sbnApplySpec
  rw [hchk]
  by_cases hle : s.max_length ≤ t
  · have h1 : (s.max_length : ℤ) ≤ (t : ℤ) := by exact_mod_cast hle
    rw [if_pos h1, if_neg (by omega : ¬ ((s.max_length : ℤ) - 1 < 0)), if_pos hle]
    have h2 : ((s.max_length : ℤ) - 1).toNat = s.max_length - 1 := by omega
    rw [h2]
  · have h1 : ¬ ((s.max_length : ℤ) ≤ (t : ℤ)) := by exact_mod_cast hle
    rw [if_neg h1, if_neg (by omega : ¬ ((t : ℤ) < 0)), if_neg hle]
    have h2 : ((t : ℤ)).toNat = t := by omega
    rw [h2]

/-- Helper: shape and state facts about one batch-norm step: the output
keeps the input's shape; the step leaves max_length, the affine
parameters and the buffer widths unchanged. -/
theorem sbn_bnStep_facts (E : Engine) (s : SBN) (training : Bool) (input_ : Tensor2)
    (ti : ℕ) :
    ((SBN.bnStep E s training input_ ti).1.n0 = input_.n0 ∧
      (SBN.bnStep E s training input_ ti).1.n1 = input_.n1) ∧
    ((SBN.bnStep E s training input_ ti).2.max_length = s.max_length ∧
      (SBN.bnStep E s training input_ ti).2.weight = s.weight ∧
      (SBN.bnStep E s training input_ ti).2.bias = s.bias ∧
      (SBN.bnStep E s training input_ ti).2.affine = s.affine) ∧
    (∀ F, SBNFeat s F → SBNFeat (SBN.bnStep E s training input_ ti).2 F) := by
  unfold SBN.bnStep
  cases training with
  | false => exact ⟨⟨rfl, rfl⟩, ⟨rfl, rfl, rfl, rfl⟩, fun F h => h⟩
  | true =>
    refine ⟨⟨rfl, rfl⟩, ⟨rfl, rfl, rfl, rfl⟩, fun F h i => ?_⟩
    show (if i = ti then mk1 (s.running_mean ti).n0 _ else s.running_mean i).n0 = F
    by_cases hi : i = ti
    · rw [if_pos hi]
      exact h ti
    · rw [if_neg hi]
      exact h i

/-- Helper: under ready norm modules, the source's GRU-cell block
computes exactly the claim's update formula. -/
theorem minimalGRUCell_eq_spec (E : Engine) (nonlinearity : String)
    (is_norm training : Bool) (w_ih w_hh : Tensor2) (b_ih b_hh : Option Tensor1)
    (mask : Option Tensor1) (inorm hnorm : SBN) (input hx_ : Tensor2) (t : ℕ)
    (hin : SBNFeat inorm w_ih.n0) (hmlI : 1 ≤ inorm.max_length)
    (hhn : SBNFeat hnorm w_hh.n0) (hmlH : 1 ≤ hnorm.max_length) :
    minimalGRUCell E nonlinearity is_norm training w_ih w_hh b_ih b_hh mask inorm hnorm
        input hx_ t =
      Except.ok (gruCellSpec E nonlinearity is_norm training w_ih w_hh b_ih b_hh mask
        (hx_, inorm, hnorm) input t) := by
  cases is_norm with
  | false => rfl
  | true =>
    have h1 := sbn_forward_nat E inorm training (linear input w_ih b_ih) t hmlI
      (show (linear input w_ih b_ih).n1 = (inorm.running_mean 0).n0 from (hin 0).symm)
    have h2 := sbn_forward_nat E hnorm training (linear hx_ w_hh b_hh) t hmlH
      (show (linear hx_ w_hh b_hh).n1 = (hnorm.running_mean 0).n0 from (hhn 0).symm)
    unfold minimalGRUCell gruCellSpec
    simp only [if_true, Bool.true_eq, h1, h2]

/-- Helper: the cell output has the input's batch rows and the first
gate chunk's width, regardless of the hidden state's shape. -/
theorem gruCellSpec_shape (E : Engine) (nonlinearity : String) (is_norm training : Bool)
    (w_ih w_hh : Tensor2) (b_ih b_hh : Option Tensor1) (mask : Option Tensor1)
    (st : Tensor2 × SBN × SBN) (input : Tensor2) (t : ℕ) :
    (gruCellSpec E nonlinearity is_norm training w_ih w_hh b_ih b_hh mask st input t).1.n0 =
        input.n0 ∧
      (gruCellSpec E nonlinearity is_norm training w_ih w_hh b_ih b_hh mask st input
          t).1.n1 =
        (w_ih.n0 + 1) / 2 := by
  cases is_norm <;> cases mask <;> cases training <;> exact ⟨rfl, rfl⟩

/-- Helper: the cell preserves max_length, the affine parameters and
the buffer widths of both norm states. -/
theorem gruCellSpec_state (E : Engine) (nonlinearity : String) (is_norm training : Bool)
    (w_ih w_hh : Tensor2) (b_ih b_hh : Option Tensor1) (mask : Option Tensor1)
    (st : Tensor2 × SBN × SBN) (input : Tensor2) (t : ℕ) :
    ((gruCellSpec E nonlinearity is_norm training w_ih w_hh b_ih b_hh mask st input
        t).2.1.max_length = st.2.1.max_length ∧
      (gruCellSpec E nonlinearity is_norm training w_ih w_hh b_ih b_hh mask st input
        t).2.1.weight = st.2.1.weight ∧
      (gruCellSpec E nonlinearity is_norm training w_ih w_hh b_ih b_hh mask st input
        t).2.1.bias = st.2.1.bias ∧
      (gruCellSpec E nonlinearity is_norm training w_ih w_hh b_ih b_hh mask st input
        t).2.1.affine = st.2.1.affine) ∧
    ((gruCellSpec E nonlinearity is_norm training w_ih w_hh b_ih b_hh mask st input
        t).2.2.max_length = st.2.2.max_length ∧
      (gruCellSpec E nonlinearity is_norm training w_ih w_hh b_ih b_hh mask st input
        t).2.2.weight = st.2.2.weight ∧
      (gruCellSpec E nonlinearity is_norm training w_ih w_hh b_ih b_hh mask st input
        t).2.2.bias = st.2.2.bias ∧
      (gruCellSpec E nonlinearity is_norm training w_ih w_hh b_ih b_hh mask st input
        t).2.2.affine = st.2.2.affine) ∧
    (∀ F, SBNFeat st.2.1 F →
      SBNFeat (gruCellSpec E nonlinearity is_norm training w_ih w_hh b_ih b_hh mask st
        input t).2.1 F) ∧
    (∀ F, SBNFeat st.2.2 F →
      SBNFeat (gruCellSpec E nonlinearity is_norm training w_ih w_hh b_ih b_hh mask st
        input t).2.2 F) := by
  cases is_norm with
  | false => exact ⟨⟨rfl, rfl, rfl, rfl⟩, ⟨rfl, rfl, rfl, rfl⟩, fun F h => h, fun F h => h⟩
  | true =>
    have h1 := sbn_bnStep_facts E st.2.1 training (linear input w_ih b_ih)
      (if st.2.1.max_length ≤ t then st.2.1.max_length - 1 else t)
    have h2 := sbn_bnStep_facts E st.2.2 training (linear st.1 w_hh b_hh)
      (if st.2.2.max_length ≤ t then st.2.2.max_length - 1 else t)
    exact ⟨⟨h1.2.1.1, h1.2.1.2.1, h1.2.1.2.2.1, h1.2.1.2.2.2⟩,
      ⟨h2.2.1.1, h2.2.1.2.1, h2.2.1.2.2.1, h2.2.1.2.2.2⟩,
      h1.2.2, h2.2.2⟩

/-- Helper: the norm-readiness invariant holds along the whole spec
hidden-state sequence. -/
theorem gruSeqSpec_inv (E : Engine) (nonlinearity : String) (is_norm training : Bool)
    (w_ih w_hh : Tensor2) (b_ih b_hh : Option Tensor1) (mask : Option Tensor1)
    (x : Tensor3) (init : Tensor2 × SBN × SBN)
    (hin : SBNFeat init.2.1 w_ih.n0) (hmlI : 1 ≤ init.2.1.max_length)
    (hhn : SBNFeat init.2.2 w_hh.n0) (hmlH : 1 ≤ init.2.2.max_length) (n : ℕ) :
    SBNFeat (gruSeqSpec E nonlinearity is_norm training w_ih w_hh b_ih b_hh mask x init
        n).2.1 w_ih.n0 ∧
      1 ≤ (gruSeqSpec E nonlinearity is_norm training w_ih w_hh b_ih b_hh mask x init
        n).2.1.max_length ∧
      SBNFeat (gruSeqSpec E nonlinearity is_norm training w_ih w_hh b_ih b_hh mask x init
        n).2.2 w_hh.n0 ∧
      1 ≤ (gruSeqSpec E nonlinearity is_norm training w_ih w_hh b_ih b_hh mask x init
        n).2.2.max_length := by
  induction n with
  | zero => exact ⟨hin, hmlI, hhn, hmlH⟩
  | succ n ih =>
    have hst := gruCellSpec_state E nonlinearity is_norm training w_ih w_hh b_ih b_hh mask
      (gruSeqSpec E nonlinearity is_norm training w_ih w_hh b_ih b_hh mask x init n)
      (sliceTime x n) n
    refine ⟨hst.2.2.1 _ ih.1, ?_, hst.2.2.2 _ ih.2.2.1, ?_⟩
    · rw [show (gruSeqSpec E nonlinearity is_norm training w_ih w_hh b_ih b_hh mask x init
        (n + 1)) = gruCellSpec E nonlinearity is_norm training w_ih w_hh b_ih b_hh mask
          (gruSeqSpec E nonlinearity is_norm training w_ih w_hh b_ih b_hh mask x init n)
          (sliceTime x n) n from rfl, hst.1.1]
      exact ih.2.1
    · rw [show (gruSeqSpec E nonlinearity is_norm training w_ih w_hh b_ih b_hh mask x init
        (n + 1)) = gruCellSpec E nonlinearity is_norm training w_ih w_hh b_ih b_hh mask
          (gruSeqSpec E nonlinearity is_norm training w_ih w_hh b_ih b_hh mask x init n)
          (sliceTime x n) n from rfl, hst.2.1.1]
      exact ih.2.2.2

/-- Helper: the time loop over an index list extended on the right runs
the extra timestep on the loop's result. -/
theorem minimalGRURunDir_append (E : Engine) (nonlinearity : String)
    (is_norm training : Bool) (w_ih w_hh : Tensor2) (b_ih b_hh : Option Tensor1)
    (mask : Option Tensor1) (x : Tensor3) (ts : List ℕ) (t : ℕ)
    (st : Tensor2 × List Tensor2 × SBN × SBN) :
    minimalGRURunDir E nonlinearity is_norm training w_ih w_hh b_ih b_hh mask x
        (ts ++ [t]) st =
      (match minimalGRURunDir E nonlinearity is_norm training w_ih w_hh b_ih b_hh mask x
          ts st with
       | Except.error e => Except.error e
       | Except.ok st' =>
         match minimalGRUCell E nonlinearity is_norm training w_ih w_hh b_ih b_hh mask
             st'.2.2.1 st'.2.2.2 (sliceTime x t) st'.1 t with
         | Except.error e => Except.error e
         | Except.ok (hx2, inorm', hnorm') =>
           Except.ok (hx2, st'.2.1 ++ [hx2], inorm', hnorm')) := by
  induction ts generalizing st with
  | nil =>
    cases hc : minimalGRUCell E nonlinearity is_norm training w_ih w_hh b_ih b_hh mask
        st.2.2.1 st.2.2.2 (sliceTime x t) st.1 t with
    | error e => simp [minimalGRURunDir, hc]
    | ok v =>
      obtain ⟨a, b, c⟩ := v
      simp [minimalGRURunDir, hc]
  | cons a rest ih =>
    cases hc : minimalGRUCell E nonlinearity is_norm training w_ih w_hh b_ih b_hh mask
        st.2.2.1 st.2.2.2 (sliceTime x a) st.1 a with
    | error e => simp [List.cons_append, minimalGRURunDir, hc]
    | ok v =>
      obtain ⟨hx2, i2, h2⟩ := v
      simp only [List.cons_append, minimalGRURunDir, hc]
      exact ih _

/-- Helper: under ready norm modules, the source's time loop succeeds
and returns exactly the spec recurrence's hidden states, in order. -/
theorem minimalGRURunDir_eq_spec (E : Engine) (nonlinearity : String)
    (is_norm training : Bool) (w_ih w_hh : Tensor2) (b_ih b_hh : Option Tensor1)
    (mask : Option Tensor1) (x : Tensor3) (h0 : Tensor2) (i0 h0n : SBN)
    (hin : SBNFeat i0 w_ih.n0) (hmlI : 1 ≤ i0.max_length)
    (hhn : SBNFeat h0n w_hh.n0) (hmlH : 1 ≤ h0n.max_length) (n : ℕ) :
    minimalGRURunDir E nonlinearity is_norm training w_ih w_hh b_ih b_hh mask x
        (List.range n) (h0, [], i0, h0n) =
      Except.ok
        ((gruSeqSpec E nonlinearity is_norm training w_ih w_hh b_ih b_hh mask x
            (h0, i0, h0n) n).1,
          (List.range n).map (fun t =>
            (gruSeqSpec E nonlinearity is_norm training w_ih w_hh b_ih b_hh mask x
              (h0, i0, h0n) (t + 1)).1),
          (gruSeqSpec E nonlinearity is_norm training w_ih w_hh b_ih b_hh mask x
            (h0, i0, h0n) n).2.1,
          (gruSeqSpec E nonlinearity is_norm training w_ih w_hh b_ih b_hh mask x
            (h0, i0, h0n) n).2.2) := by
  induction n with
  | zero => rfl
  | succ n ih =>
    have hinv := gruSeqSpec_inv E nonlinearity is_norm training w_ih w_hh b_ih b_hh mask
      x (h0, i0, h0n) hin hmlI hhn hmlH n
    have hcell := minimalGRUCell_eq_spec E nonlinearity is_norm training w_ih w_hh b_ih
      b_hh mask
      (gruSeqSpec E nonlinearity is_norm training w_ih w_hh b_ih b_hh mask x (h0, i0, h0n)
        n).2.1
      (gruSeqSpec E nonlinearity is_norm training w_ih w_hh b_ih b_hh mask x (h0, i0, h0n)
        n).2.2
      (sliceTime x n)
      (gruSeqSpec E nonlinearity is_norm training w_ih w_hh b_ih b_hh mask x (h0, i0, h0n)
        n).1
      n hinv.1 hinv.2.1 hinv.2.2.1 hinv.2.2.2
    rw [List.range_succ, List.map_append, minimalGRURunDir_append, ih]
    dsimp only
    rw [hcell]
    rfl

/-- Helper: shape of a nonempty dim-1 concatenation of (B, 1, w)
tensors. -/
theorem cat3dim1_shape (B w : ℕ) (l : List Tensor3) (hne : l ≠ [])
    (hall : ∀ y ∈ l, y.n0 = B ∧ y.n1 = 1 ∧ y.n2 = w) :
    (cat3dim1 l).n0 = B ∧ (cat3dim1 l).n1 = l.length ∧ (cat3dim1 l).n2 = w := by
  induction l with
  | nil => exact absurd rfl hne
  | cons x xs ih =>
    obtain ⟨hx0, hx1, hx2⟩ := hall x (List.mem_cons_self _ _)
    refine ⟨hx0, ?_, hx2⟩
    show x.n1 + (cat3dim1 xs).n1 = xs.length + 1
    cases xs with
    | nil =>
      show x.n1 + (0 : ℕ) = 0 + 1
      omega
    | cons y ys =>
      have hrest := ih (by simp) (fun z hz => hall z (List.mem_cons_of_mem _ hz))
      rw [hx1, hrest.2.1]
      simp [Nat.add_comm]

/-- Helper: sameStatics is reflexive. -/
theorem sameStatics_refl (m : MinimalGRUM) : sameStatics m m :=
  ⟨rfl, rfl, rfl, rfl, rfl, rfl, rfl, rfl, rfl, rfl⟩

/-- Helper: sameStatics is transitive. -/
theorem sameStatics_trans {a b c : MinimalGRUM} (h1 : sameStatics a b)
    (h2 : sameStatics b c) : sameStatics a c :=
  ⟨h2.1.trans h1.1, h2.2.1.trans h1.2.1, h2.2.2.1.trans h1.2.2.1,
   h2.2.2.2.1.trans h1.2.2.2.1, h2.2.2.2.2.1.trans h1.2.2.2.2.1,
   h2.2.2.2.2.2.1.trans h1.2.2.2.2.2.1, h2.2.2.2.2.2.2.1.trans h1.2.2.2.2.2.2.1,
   h2.2.2.2.2.2.2.2.1.trans h1.2.2.2.2.2.2.2.1,
   h2.2.2.2.2.2.2.2.2.1.trans h1.2.2.2.2.2.2.2.2.1,
   h2.2.2.2.2.2.2.2.2.2.trans h1.2.2.2.2.2.2.2.2.2⟩

/-- Helper: the gate-width property transfers along sameStatics. -/
theorem GRUGate_of_sameStatics {a b : MinimalGRUM} {gs : ℕ} (h : sameStatics a b)
    (hg : GRUGate a gs) : GRUGate b gs := by
  intro idx
  rw [h.2.2.2.2.2.2.2.2.2]
  exact hg idx

/-- Helper: under ready norm modules, the direction loop of one layer
succeeds, appends one output list of t_len hidden states per direction
— each of shape (input batch, half the gate width) — and only rewrites
norm statistics. -/
theorem minimalGRUDirLoop_ok (E : Engine) (training : Bool)
    (dropFn : ℕ → Tensor1 → Tensor1) (hx : Tensor3) (t_len layer : ℕ) (xcur : Tensor3)
    (gs : ℕ) (dirs : List ℕ) :
    ∀ (acc : List (List Tensor2) × MinimalGRUM), GRUNormReady acc.2 → GRUGate acc.2 gs →
    ∃ ext m2,
      minimalGRUDirLoop E training dropFn hx t_len layer xcur dirs acc =
        Except.ok (acc.1 ++ ext, m2) ∧
      sameStatics acc.2 m2 ∧ GRUNormReady m2 ∧ ext.length = dirs.length ∧
      ∀ outs ∈ ext, outs.length = t_len ∧
        ∀ o ∈ outs, o.n0 = xcur.n0 ∧ o.n1 = (gs + 1) / 2 := by
  induction dirs with
  | nil =>
    intro acc hready hgate
    exact ⟨[], acc.2, by simp [minimalGRUDirLoop], sameStatics_refl _, hready, rfl,
      by simp⟩
  | cons d rest ih =>
    intro acc hready hgate
    have hrd := minimalGRURunDir_eq_spec E acc.2.nonlinearity acc.2.is_norm training
      (acc.2.slots (layer * acc.2.num_directions + d)).w_ih
      (acc.2.slots (layer * acc.2.num_directions + d)).w_hh
      (if acc.2.bias then some (acc.2.slots (layer * acc.2.num_directions + d)).b_ih
        else none)
      (if acc.2.bias then some (acc.2.slots (layer * acc.2.num_directions + d)).b_hh
        else none)
      (if acc.2.dropout ≠ 0 then
        some (dropFn (layer * acc.2.num_directions + d)
          (acc.2.slots (layer * acc.2.num_directions + d)).drop_mask)
       else none)
      xcur (sliceDim0 hx (layer * acc.2.num_directions + d))
      (acc.2.i_norm (layer * acc.2.num_directions + d))
      (acc.2.h_norm (layer * acc.2.num_directions + d))
      (hready (layer * acc.2.num_directions + d)).1.1
      (hready (layer * acc.2.num_directions + d)).1.2
      (hready (layer * acc.2.num_directions + d)).2.1
      (hready (layer * acc.2.num_directions + d)).2.2
      t_len
    set idx := layer * acc.2.num_directions + d with hidx
    set SS := gruSeqSpec E acc.2.nonlinearity acc.2.is_norm training
      (acc.2.slots idx).w_ih (acc.2.slots idx).w_hh
      (if acc.2.bias then some (acc.2.slots idx).b_ih else none)
      (if acc.2.bias then some (acc.2.slots idx).b_hh else none)
      (if acc.2.dropout ≠ 0 then some (dropFn idx (acc.2.slots idx).drop_mask) else none)
      xcur (sliceDim0 hx idx, acc.2.i_norm idx, acc.2.h_norm idx) with hSS
    set mcur2 : MinimalGRUM := { acc.2 with
      i_norm := fun j => if j = idx then (SS t_len).2.1 else acc.2.i_norm j
      h_norm := fun j => if j = idx then (SS t_len).2.2 else acc.2.h_norm j } with hmcur2
    have hfin := gruSeqSpec_inv E acc.2.nonlinearity acc.2.is_norm training
      (acc.2.slots idx).w_ih (acc.2.slots idx).w_hh
      (if acc.2.bias then some (acc.2.slots idx).b_ih else none)
      (if acc.2.bias then some (acc.2.slots idx).b_hh else none)
      (if acc.2.dropout ≠ 0 then some (dropFn idx (acc.2.slots idx).drop_mask) else none)
      xcur (sliceDim0 hx idx, acc.2.i_norm idx, acc.2.h_norm idx)
      (hready idx).1.1 (hready idx).1.2 (hready idx).2.1 (hready idx).2.2 t_len
    have hready2 : GRUNormReady mcur2 := by
      intro j
      by_cases hj : j = idx
      · have hmi : mcur2.i_norm j = (SS t_len).2.1 := by
          show (if j = idx then (SS t_len).2.1 else acc.2.i_norm j) = _
          rw [if_pos hj]
        have hmh : mcur2.h_norm j = (SS t_len).2.2 := by
          show (if j = idx then (SS t_len).2.2 else acc.2.h_norm j) = _
          rw [if_pos hj]
        have hms : mcur2.slots j = acc.2.slots idx := by
          show acc.2.slots j = _
          rw [hj]
        refine ⟨⟨?_, ?_⟩, ?_, ?_⟩
        · rw [hmi, hms]
          exact hfin.1
        · rw [hmi]
          exact hfin.2.1
        · rw [hmh, hms]
          exact hfin.2.2.1
        · rw [hmh]
          exact hfin.2.2.2
      · have hmi : mcur2.i_norm j = acc.2.i_norm j := by
          show (if j = idx then (SS t_len).2.1 else acc.2.i_norm j) = _
          rw [if_neg hj]
        have hmh : mcur2.h_norm j = acc.2.h_norm j := by
          show (if j = idx then (SS t_len).2.2 else acc.2.h_norm j) = _
          rw [if_neg hj]
        refine ⟨⟨?_, ?_⟩, ?_, ?_⟩
        · rw [hmi]
          exact (hready j).1.1
        · rw [hmi]
          exact (hready j).1.2
        · rw [hmh]
          exact (hready j).2.1
        · rw [hmh]
          exact (hready j).2.2
    have hgate2 : GRUGate mcur2 gs := hgate
    obtain ⟨ext', m2, hloop, hstat, hready3, hlen, hprops⟩ :=
      ih ((acc.1 ++ [(List.range t_len).map (fun t => (SS (t + 1)).1)]), mcur2) hready2
        hgate2
    refine ⟨((List.range t_len).map (fun t => (SS (t + 1)).1)) :: ext', m2, ?_, ?_,
      hready3, by simp [hlen], ?_⟩
    · show minimalGRUDirLoop E training dropFn hx t_len layer xcur (d :: rest) acc = _
      rw [minimalGRUDirLoop]
      rw [hrd]
      dsimp only
      rw [hloop]
      simp
    · exact sameStatics_trans ⟨rfl, rfl, rfl, rfl, rfl, rfl, rfl, rfl, rfl, rfl⟩ hstat
    · intro outs hmem
      rcases List.mem_cons.mp hmem with hhd | htl
      · subst hhd
        constructor
        · simp
        · intro o ho
          obtain ⟨t, ht, rfl⟩ := List.mem_map.mp ho
          have hshape := gruCellSpec_shape E acc.2.nonlinearity acc.2.is_norm training
            (acc.2.slots idx).w_ih (acc.2.slots idx).w_hh
            (if acc.2.bias then some (acc.2.slots idx).b_ih else none)
            (if acc.2.bias then some (acc.2.slots idx).b_hh else none)
            (if acc.2.dropout ≠ 0 then some (dropFn idx (acc.2.slots idx).drop_mask)
              else none)
            (SS t) (sliceTime xcur t) t
          constructor
          · show (gruCellSpec E acc.2.nonlinearity acc.2.is_norm training
              (acc.2.slots idx).w_ih (acc.2.slots idx).w_hh
              (if acc.2.bias then some (acc.2.slots idx).b_ih else none)
              (if acc.2.bias then some (acc.2.slots idx).b_hh else none)
              (if acc.2.dropout ≠ 0 then some (dropFn idx (acc.2.slots idx).drop_mask)
                else none)
              (SS t) (sliceTime xcur t) t).1.n0 = xcur.n0
            exact hshape.1
          · show (gruCellSpec E acc.2.nonlinearity acc.2.is_norm training
              (acc.2.slots idx).w_ih (acc.2.slots idx).w_hh
              (if acc.2.bias then some (acc.2.slots idx).b_ih else none)
              (if acc.2.bias then some (acc.2.slots idx).b_hh else none)
              (if acc.2.dropout ≠ 0 then some (dropFn idx (acc.2.slots idx).drop_mask)
                else none)
              (SS t) (sliceTime xcur t) t).1.n1 = (gs + 1) / 2
            rw [hshape.2, (hgate idx).1]
      · exact hprops outs htl

/-- Helper: under ready norm modules, the stacked-layer loop succeeds;
with at least one layer the output has shape
(batch, t_len, num_directions * half gate width). -/
theorem minimalGRULayerLoop_ok (E : Engine) (training : Bool)
    (dropFn : ℕ → Tensor1 → Tensor1) (hx : Tensor3) (t_len gs B : ℕ) (ls : List ℕ) :
    ∀ (st : Tensor3 × MinimalGRUM), GRUNormReady st.2 → GRUGate st.2 gs →
      (st.2.num_directions = 1 ∨ st.2.num_directions = 2) → 1 ≤ t_len → st.1.n0 = B →
    ∃ out m2,
      minimalGRULayerLoop E training dropFn hx t_len ls st = Except.ok (out, m2) ∧
      sameStatics st.2 m2 ∧ GRUNormReady m2 ∧
      (ls = [] → out = st.1) ∧
      (ls ≠ [] → out.n0 = B ∧ out.n1 = t_len ∧
        out.n2 = st.2.num_directions * ((gs + 1) / 2)) := by
  induction ls with
  | nil =>
    intro st hready hgate hnd ht hB
    exact ⟨st.1, st.2, by simp [minimalGRULayerLoop], sameStatics_refl _, hready,
      fun _ => rfl, fun h => absurd rfl h⟩
  | cons l rest ih =>
    intro st hready hgate hnd ht hB
    obtain ⟨ext, m2a, hdl, hstatA, hreadyA, hlen, hprops⟩ :=
      minimalGRUDirLoop_ok E training dropFn hx t_len l st.1 gs
        (List.range st.2.num_directions) ([], st.2) hready hgate
    rw [List.length_range] at hlen
    rcases hnd with hnd | hnd
    · -- one direction
      rw [hnd] at hlen
      obtain ⟨outs, rfl⟩ := List.length_eq_one.mp hlen
      have houts := hprops outs (List.mem_singleton.mpr rfl)
      have hxshape := cat3dim1_shape B ((gs + 1) / 2) (outs.map unsqueeze1)
        (by
          have : (outs.map unsqueeze1).length = t_len := by simp [houts.1]
          intro hc
          rw [hc] at this
          simp at this
          omega)
        (by
          intro y hy
          obtain ⟨o, ho, rfl⟩ := List.mem_map.mp hy
          have := houts.2 o ho
          exact ⟨by rw [show (unsqueeze1 o).n0 = o.n0 from rfl, this.1, hB], rfl,
            by rw [show (unsqueeze1 o).n2 = o.n1 from rfl, this.2]⟩)
      obtain ⟨out, m2, hrec, hstatB, hreadyB, hnil, hcons⟩ :=
        ih (cat3dim1 (outs.map unsqueeze1), m2a) hreadyA
          (GRUGate_of_sameStatics hstatA hgate)
          (by rw [show m2a.num_directions = st.2.num_directions from hstatA.2.2.2.2.1]
              exact Or.inl hnd)
          ht hxshape.1
      refine ⟨out, m2, ?_, sameStatics_trans hstatA hstatB, hreadyB,
        fun h => absurd h (List.cons_ne_nil _ _), fun _ => ?_⟩
      · rw [minimalGRULayerLoop, hdl]
        dsimp only
        exact hrec
      · by_cases hrest : rest = []
        · have hout := hnil hrest
          rw [hout]
          refine ⟨hxshape.1, ?_, ?_⟩
          · rw [hxshape.2.1]
            simp [houts.1]
          · rw [hxshape.2.2, hnd]
            omega
        · have hsh := hcons hrest
          refine ⟨hsh.1, hsh.2.1, ?_⟩
          rw [hsh.2.2, show m2a.num_directions = st.2.num_directions from
            hstatA.2.2.2.2.1]
    · -- two directions
      rw [hnd] at hlen
      obtain ⟨f, b, rfl⟩ := List.length_eq_two.mp hlen
      have hf := hprops f (by simp)
      have hb := hprops b (by simp)
      have hzlen : ((f.zip b.reverse).map
          (fun p => unsqueeze1 (cat2dim1 p.1 p.2))).length = t_len := by
        simp [List.length_zip, hf.1, hb.1]
      have hxshape := cat3dim1_shape B ((gs + 1) / 2 + (gs + 1) / 2)
        ((f.zip b.reverse).map (fun p => unsqueeze1 (cat2dim1 p.1 p.2)))
        (by
          intro hc
          rw [hc] at hzlen
          simp at hzlen
          omega)
        (by
          intro y hy
          obtain ⟨p, hp, rfl⟩ := List.mem_map.mp hy
          have hpf := (List.of_mem_zip hp).1
          have hpb := List.mem_reverse.mp (List.of_mem_zip hp).2
          have h1 := hf.2 p.1 hpf
          have h2 := hb.2 p.2 hpb
          refine ⟨?_, rfl, ?_⟩
          · show (cat2dim1 p.1 p.2).n0 = B
            show p.1.n0 = B
            rw [h1.1, hB]
          · show (cat2dim1 p.1 p.2).n1 = (gs + 1) / 2 + (gs + 1) / 2
            show p.1.n1 + p.2.n1 = _
            rw [h1.2, h2.2])
      obtain ⟨out, m2, hrec, hstatB, hreadyB, hnil, hcons⟩ :=
        ih (cat3dim1 ((f.zip b.reverse).map (fun p => unsqueeze1 (cat2dim1 p.1 p.2))),
            m2a) hreadyA
          (GRUGate_of_sameStatics hstatA hgate)
          (by rw [show m2a.num_directions = st.2.num_directions from hstatA.2.2.2.2.1]
              exact Or.inr hnd)
          ht hxshape.1
      refine ⟨out, m2, ?_, sameStatics_trans hstatA hstatB, hreadyB,
        fun h => absurd h (List.cons_ne_nil _ _), fun _ => ?_⟩
      · rw [minimalGRULayerLoop, hdl]
        dsimp only
        exact hrec
      · by_cases hrest : rest = []
        · have hout := hnil hrest
          rw [hout]
          refine ⟨hxshape.1, ?_, ?_⟩
          · rw [hxshape.2.1, hzlen]
          · rw [hxshape.2.2, hnd]
            omega
        · have hsh := hcons hrest
          refine ⟨hsh.1, hsh.2.1, ?_⟩
          rw [hsh.2.2, show m2a.num_directions = st.2.num_directions from
            hstatA.2.2.2.2.1]

/-- C5: for every input of shape (batch, time, input_size) and a
zero-initialized hidden state, MinimalGRU.forward succeeds and returns
an output whose time length equals the input time length and whose
feature width is 2*hidden_size when bidirectional and hidden_size
otherwise. -/
theorem C5_minimalgru_forward_shape (E : Engine) (θ : MinimalGRUDraw)
    (dropFn : ℕ → Tensor1 → Tensor1) (training : Bool)
    (input_size hidden_size max_len num_layers : ℕ) (is_bidirection bias : Bool)
    (dropout : ℚ) (nonlinearity : String) (is_norm : Bool) (x : Tensor3)
    (hml : 1 ≤ max_len) (hlayers : 1 ≤ num_layers) (ht : 1 ≤ x.n1)
    (hfeat : x.n2 = input_size) :
    ∃ out m2,
      MinimalGRU.forward E
          (MinimalGRU.initModule input_size hidden_size max_len num_layers is_bidirection
            bias dropout nonlinearity is_norm θ)
          training dropFn x
          (zeros3 (num_layers *
              (MinimalGRU.initModule input_size hidden_size max_len num_layers
                is_bidirection bias dropout nonlinearity is_norm θ).num_directions)
            x.n0 hidden_size) 1 =
        Except.ok (out, m2) ∧
      out.n0 = x.n0 ∧ out.n1 = x.n1 ∧
      out.n2 = (if is_bidirection then 2 * hidden_size else hidden_size) := by
  have hready : GRUNormReady (MinimalGRU.initModule input_size hidden_size max_len
      num_layers is_bidirection bias dropout nonlinearity is_norm θ) :=
    fun _ => ⟨⟨fun _ => rfl, hml⟩, fun _ => rfl, hml⟩
  have hgate : GRUGate (MinimalGRU.initModule input_size hidden_size max_len num_layers
      is_bidirection bias dropout nonlinearity is_norm θ) (2 * hidden_size) :=
    fun _ => ⟨rfl, rfl⟩
  have hnd : (MinimalGRU.initModule input_size hidden_size max_len num_layers
        is_bidirection bias dropout nonlinearity is_norm θ).num_directions = 1 ∨
      (MinimalGRU.initModule input_size hidden_size max_len num_layers is_bidirection
        bias dropout nonlinearity is_norm θ).num_directions = 2 := by
    cases is_bidirection with
    | false => exact Or.inl rfl
    | true => exact Or.inr rfl
  obtain ⟨out, m2, hloop, _, _, _, hcons⟩ :=
    minimalGRULayerLoop_ok E training dropFn
      (zeros3 (num_layers *
          (MinimalGRU.initModule input_size hidden_size max_len num_layers is_bidirection
            bias dropout nonlinearity is_norm θ).num_directions)
        x.n0 hidden_size)
      x.n1 (2 * hidden_size) x.n0 (List.range num_layers)
      (x, MinimalGRU.initModule input_size hidden_size max_len num_layers is_bidirection
        bias dropout nonlinearity is_norm θ)
      hready hgate hnd ht rfl
  have hne : List.range num_layers ≠ [] := by
    intro hc
    have := List.range_eq_nil.mp hc
    omega
  have hsh := hcons hne
  refine ⟨out, m2, ?_, hsh.1, hsh.2.1, ?_⟩
  · unfold MinimalGRU.forward
    rw [if_pos rfl]
    exact hloop
  · rw [hsh.2.2]
    cases is_bidirection with
    | false =>
      show 1 * ((2 * hidden_size + 1) / 2) = hidden_size
      omega
    | true =>
      show 2 * ((2 * hidden_size + 1) / 2) = 2 * hidden_size
      omega

/-- Witness for C5: hidden_size 8, one unidirectional layer, input of
shape (3, 5, 4) gives an output of shape (3, 5, 8). -/
theorem C5_minimalgru_forward_shape_witness :
    1 ≤ 5 ∧ 1 ≤ 1 ∧ 1 ≤ xTest354.n1 ∧ xTest354.n2 = 4 ∧
      (∃ out m2,
        MinimalGRU.forward E0 mgruTest false (fun _ v => v) xTest354
            (zeros3 (1 * mgruTest.num_directions) xTest354.n0 8) 1 =
          Except.ok (out, m2) ∧
        out.n0 = xTest354.n0 ∧ out.n1 = xTest354.n1 ∧
        out.n2 = (if false then 2 * 8 else 8)) :=
  ⟨by decide, by decide, by decide, by decide,
   C5_minimalgru_forward_shape E0 zeroGRUDraw (fun _ v => v) false 4 8 5 1 false true 0
     "relu" true xTest354 (by decide) (by decide) (by decide) (by decide)⟩

/-- Helper: a linear map with zero weight and zero (or absent) bias
sends every input to the zero tensor. -/
theorem linear_zero (input : Tensor2) (w : Tensor2) (b : Option Tensor1)
    (hw : Zero2 w) (hb : ∀ bv, b = some bv → Zero1 bv) : Zero2 (linear input w b) := by
  intro i o
  show (if i < input.n0 ∧ o < w.n0 then _ else 0) = 0
  split
  · have hsum : Finset.sum (Finset.range w.n1) (fun j => input.data i j * w.data o j) = 0 :=
      Finset.sum_eq_zero (fun j _ => by rw [hw o j, mul_zero])
    rw [hsum]
    cases b with
    | none => simp
    | some bv => simp [hb bv rfl o]
  · rfl

/-- Helper: pointwise products vanish when the right factor is zero. -/
theorem mul2_zero_right (a b : Tensor2) (hb : Zero2 b) : Zero2 (mul2 a b) := by
  intro i j
  show (if i < a.n0 ∧ j < a.n1 then a.data i j * b.data i j else 0) = 0
  split
  · rw [hb i j, mul_zero]
  · rfl

/-- Helper: sums of zero tensors are zero. -/
theorem add2_zero (a b : Tensor2) (ha : Zero2 a) (hb : Zero2 b) : Zero2 (add2 a b) := by
  intro i j
  show (if i < a.n0 ∧ j < a.n1 then a.data i j + b.data i j else 0) = 0
  split
  · rw [ha i j, hb i j, add_zero]
  · rfl

/-- Helper: masking a zero gate tensor keeps it zero. -/
theorem rowScale_zero (a : Tensor2) (v : Tensor1) (ha : Zero2 a) :
    Zero2 (rowScale a v) := by
  intro i j
  show (if i < a.n0 ∧ j < a.n1 then a.data i j * v.data j else 0) = 0
  split
  · rw [ha i j, zero_mul]
  · rfl

/-- Helper: slices of zero tensors are zero. -/
theorem slice2_zero (a : Tensor2) (lo len : ℕ) (ha : Zero2 a) :
    Zero2 (slice2 a lo len) := by
  intro i j
  show (if i < a.n0 ∧ j < len then a.data i (lo + j) else 0) = 0
  split
  · exact ha i (lo + j)
  · rfl

/-- Helper: a pointwise map with f 0 = 0 preserves zero tensors. -/
theorem map2_zero (f : ℚ → ℚ) (a : Tensor2) (hf : f 0 = 0) (ha : Zero2 a) :
    Zero2 (map2 f a) := by
  intro i j
  show (if i < a.n0 ∧ j < a.n1 then f (a.data i j) else 0) = 0
  split
  · rw [ha i j, hf]
  · rfl

/-- Helper: the configured nonlinearity sends zero to zero (ReLU always,
Tanh by the engine fact). -/
theorem applyAct_zero (E : Engine) (nonlinearity : String) (y : Tensor2)
    (hnl : nonlinearity = "relu" ∨ E.tanh 0 = 0) (hy : Zero2 y) :
    Zero2 (applyAct E nonlinearity y) := by
  unfold applyAct
  by_cases hr : nonlinearity = "relu"
  · rw [if_pos hr]
    exact map2_zero reluQ y (by unfold reluQ; simp) hy
  · rw [if_neg hr]
    rcases hnl with hnl | hnl
    · exact absurd hnl hr
    · exact map2_zero E.tanh y hnl hy

/-- Helper: a batch-norm step with zero affine parameters sends a zero
input to a zero output. -/
theorem sbn_bnStep_zero_out (E : Engine) (s : SBN) (training : Bool) (input_ : Tensor2)
    (ti : ℕ) (hz : Zero2 input_) (hzs : SBNZeroAffine s) :
    Zero2 (SBN.bnStep E s training input_ ti).1 := by
  obtain ⟨haff, hw, hb⟩ := hzs
  unfold SBN.bnStep
  cases training with
  | true =>
    intro i j
    show (if i < input_.n0 ∧ j < input_.n1 then _ else 0) = 0
    rw [hw j, hb j]
    simp [haff]
  | false =>
    intro i j
    show (if i < input_.n0 ∧ j < input_.n1 then _ else 0) = 0
    rw [hw j, hb j]
    simp [haff]

/-- Helper: the cell output is zero whenever the previous hidden state
and all learnable parameters are zero (any input, any mask), and the
zero affine parameters persist in the norm states. -/
theorem gruCellSpec_zero (E : Engine) (nonlinearity : String) (is_norm training : Bool)
    (w_ih w_hh : Tensor2) (b_ih b_hh : Option Tensor1) (mask : Option Tensor1)
    (st : Tensor2 × SBN × SBN) (input : Tensor2) (t : ℕ)
    (hzw : Zero2 w_ih) (hzh : Zero2 w_hh)
    (hbi : ∀ bv, b_ih = some bv → Zero1 bv) (hbh : ∀ bv, b_hh = some bv → Zero1 bv)
    (hsti : SBNZeroAffine st.2.1) (hsth : SBNZeroAffine st.2.2)
    (hzprev : Zero2 st.1)
    (hnl : nonlinearity = "relu" ∨ E.tanh 0 = 0) :
    Zero2 (gruCellSpec E nonlinearity is_norm training w_ih w_hh b_ih b_hh mask st input
        t).1 ∧
      SBNZeroAffine (gruCellSpec E nonlinearity is_norm training w_ih w_hh b_ih b_hh mask
        st input t).2.1 ∧
      SBNZeroAffine (gruCellSpec E nonlinearity is_norm training w_ih w_hh b_ih b_hh mask
        st input t).2.2 := by
  have hin0 : Zero2 (linear input w_ih b_ih) := linear_zero _ _ _ hzw hbi
  have hh0 : Zero2 (linear st.1 w_hh b_hh) := linear_zero _ _ _ hzh hbh
  have hinp : Zero2 (if is_norm then sbnApplySpec E st.2.1 training
        (linear input w_ih b_ih) t
      else (linear input w_ih b_ih, st.2.1)).1 := by
    cases is_norm with
    | true => exact sbn_bnStep_zero_out E st.2.1 training _ _ hin0 hsti
    | false => exact hin0
  have hhp : Zero2 (if is_norm then sbnApplySpec E st.2.2 training
        (linear st.1 w_hh b_hh) t
      else (linear st.1 w_hh b_hh, st.2.2)).1 := by
    cases is_norm with
    | true => exact sbn_bnStep_zero_out E st.2.2 training _ _ hh0 hsth
    | false => exact hh0
  have hgates0 : Zero2 (add2
      (if is_norm then sbnApplySpec E st.2.1 training (linear input w_ih b_ih) t
        else (linear input w_ih b_ih, st.2.1)).1
      (if is_norm then sbnApplySpec E st.2.2 training (linear st.1 w_hh b_hh) t
        else (linear st.1 w_hh b_hh, st.2.2)).1) := add2_zero _ _ hinp hhp
  have hgates : Zero2 (match mask with
      | some mv => rowScale (add2
          (if is_norm then sbnApplySpec E st.2.1 training (linear input w_ih b_ih) t
            else (linear input w_ih b_ih, st.2.1)).1
          (if is_norm then sbnApplySpec E st.2.2 training (linear st.1 w_hh b_hh) t
            else (linear st.1 w_hh b_hh, st.2.2)).1) mv
      | none => add2
          (if is_norm then sbnApplySpec E st.2.1 training (linear input w_ih b_ih) t
            else (linear input w_ih b_ih, st.2.1)).1
          (if is_norm then sbnApplySpec E st.2.2 training (linear st.1 w_hh b_hh) t
            else (linear st.1 w_hh b_hh, st.2.2)).1) := by
    cases mask with
    | some mv => exact rowScale_zero _ _ hgates0
    | none => exact hgates0
  refine ⟨?_, ?_, ?_⟩
  · show Zero2 (add2 (mul2 _ st.1) (mul2 _ _))
    refine add2_zero _ _ (mul2_zero_right _ _ hzprev) (mul2_zero_right _ _ ?_)
    exact applyAct_zero E nonlinearity _ hnl (slice2_zero _ _ _ hgates)
  · cases is_norm with
    | true =>
      have hf := sbn_bnStep_facts E st.2.1 training (linear input w_ih b_ih)
        (if st.2.1.max_length ≤ t then st.2.1.max_length - 1 else t)
      exact ⟨hf.2.1.2.2.2.trans hsti.1,
        by rw [show (gruCellSpec E nonlinearity true training w_ih w_hh b_ih b_hh mask st
          input t).2.1.weight = st.2.1.weight from hf.2.1.2.1]; exact hsti.2.1,
        by rw [show (gruCellSpec E nonlinearity true training w_ih w_hh b_ih b_hh mask st
          input t).2.1.bias = st.2.1.bias from hf.2.1.2.2.1]; exact hsti.2.2⟩
    | false => exact hsti
  · cases is_norm with
    | true =>
      have hf := sbn_bnStep_facts E st.2.2 training (linear st.1 w_hh b_hh)
        (if st.2.2.max_length ≤ t then st.2.2.max_length - 1 else t)
      exact ⟨hf.2.1.2.2.2.trans hsth.1,
        by rw [show (gruCellSpec E nonlinearity true training w_ih w_hh b_ih b_hh mask st
          input t).2.2.weight = st.2.2.weight from hf.2.1.2.1]; exact hsth.2.1,
        by rw [show (gruCellSpec E nonlinearity true training w_ih w_hh b_ih b_hh mask st
          input t).2.2.bias = st.2.2.bias from hf.2.1.2.2.1]; exact hsth.2.2⟩
    | false => exact hsth

/-- Helper: the spec hidden-state sequence stays zero (with zero affine
norm states) from a zero initial hidden state and zero parameters. -/
theorem gruSeqSpec_zero (E : Engine) (nonlinearity : String) (is_norm training : Bool)
    (w_ih w_hh : Tensor2) (b_ih b_hh : Option Tensor1) (mask : Option Tensor1)
    (x : Tensor3) (init : Tensor2 × SBN × SBN)
    (hzw : Zero2 w_ih) (hzh : Zero2 w_hh)
    (hbi : ∀ bv, b_ih = some bv → Zero1 bv) (hbh : ∀ bv, b_hh = some bv → Zero1 bv)
    (hsti : SBNZeroAffine init.2.1) (hsth : SBNZeroAffine init.2.2)
    (hzprev : Zero2 init.1) (hnl : nonlinearity = "relu" ∨ E.tanh 0 = 0) (n : ℕ) :
    Zero2 (gruSeqSpec E nonlinearity is_norm training w_ih w_hh b_ih b_hh mask x init
        n).1 ∧
      SBNZeroAffine (gruSeqSpec E nonlinearity is_norm training w_ih w_hh b_ih b_hh mask
        x init n).2.1 ∧
      SBNZeroAffine (gruSeqSpec E nonlinearity is_norm training w_ih w_hh b_ih b_hh mask
        x init n).2.2 := by
  induction n with
  | zero => exact ⟨hzprev, hsti, hsth⟩
  | succ n ih =>
    exact gruCellSpec_zero E nonlinearity is_norm training w_ih w_hh b_ih b_hh mask
      (gruSeqSpec E nonlinearity is_norm training w_ih w_hh b_ih b_hh mask x init n)
      (sliceTime x n) n hzw hzh hbi hbh ih.2.1 ih.2.2 ih.1 hnl

/-- Helper: slices of a zero 3-D tensor are zero. -/
theorem sliceDim0_zero (h : Tensor3) (i : ℕ) (hz : Zero3 h) : Zero2 (sliceDim0 h i) := by
  intro a b
  show (if a < h.n1 ∧ b < h.n2 then h.data i a b else 0) = 0
  split
  · exact hz i a b
  · rfl

/-- Helper: the zero hidden-state initialization is zero. -/
theorem zeros3_zero (a b c : ℕ) : Zero3 (zeros3 a b c) := fun _ _ _ => rfl

/-- Helper: unsqueezing a zero matrix gives a zero tensor. -/
theorem unsqueeze1_zero (o : Tensor2) (hz : Zero2 o) : Zero3 (unsqueeze1 o) := by
  intro i j k
  show (if i < o.n0 ∧ j < 1 ∧ k < o.n1 then o.data i k else 0) = 0
  split
  · exact hz i k
  · rfl

/-- Helper: concatenating zero matrices gives a zero matrix. -/
theorem cat2dim1_zero (a b : Tensor2) (ha : Zero2 a) (hb : Zero2 b) :
    Zero2 (cat2dim1 a b) := by
  intro i j
  show (if i < a.n0 ∧ j < a.n1 + b.n1 then if j < a.n1 then _ else _ else 0) = 0
  split
  · split
    · exact ha i j
    · exact hb i (j - a.n1)
  · rfl

/-- Helper: concatenating zero tensors over time gives a zero tensor. -/
theorem cat3dim1_zero (l : List Tensor3) (hall : ∀ y ∈ l, Zero3 y) :
    Zero3 (cat3dim1 l) := by
  induction l with
  | nil => intro i j k; rfl
  | cons x xs ih =>
    intro i j k
    show (if i < x.n0 ∧ j < x.n1 + (cat3dim1 xs).n1 ∧ k < x.n2 then
      if j < x.n1 then x.data i j k else (cat3dim1 xs).data i (j - x.n1) k else 0) = 0
    split
    · split
      · exact hall x (List.mem_cons_self _ _) i j k
      · exact ih (fun y hy => hall y (List.mem_cons_of_mem _ hy)) i (j - x.n1) k
    · rfl

/-- Helper: with zero parameters everywhere, the direction loop
succeeds and every collected hidden state is zero; the zero-weight and
readiness invariants persist. -/
theorem minimalGRUDirLoop_zero (E : Engine) (training : Bool)
    (dropFn : ℕ → Tensor1 → Tensor1) (hx : Tensor3) (t_len layer : ℕ) (xcur : Tensor3)
    (hzh : Zero3 hx) (dirs : List ℕ) :
    ∀ (acc : List (List Tensor2) × MinimalGRUM), GRUNormReady acc.2 →
      GRUZeroWeights acc.2 →
      (acc.2.nonlinearity = "relu" ∨ E.tanh 0 = 0) →
    ∃ ext m2,
      minimalGRUDirLoop E training dropFn hx t_len layer xcur dirs acc =
        Except.ok (acc.1 ++ ext, m2) ∧
      sameStatics acc.2 m2 ∧ GRUNormReady m2 ∧ GRUZeroWeights m2 ∧
      ext.length = dirs.length ∧
      ∀ outs ∈ ext, ∀ o ∈ outs, Zero2 o := by
  induction dirs with
  | nil =>
    intro acc hready hzero hnl
    exact ⟨[], acc.2, by simp [minimalGRUDirLoop], sameStatics_refl _, hready, hzero,
      rfl, by simp⟩
  | cons d rest ih =>
    intro acc hready hzero hnl
    have hrd := minimalGRURunDir_eq_spec E acc.2.nonlinearity acc.2.is_norm training
      (acc.2.slots (layer * acc.2.num_directions + d)).w_ih
      (acc.2.slots (layer * acc.2.num_directions + d)).w_hh
      (if acc.2.bias then some (acc.2.slots (layer * acc.2.num_directions + d)).b_ih
        else none)
      (if acc.2.bias then some (acc.2.slots (layer * acc.2.num_directions + d)).b_hh
        else none)
      (if acc.2.dropout ≠ 0 then
        some (dropFn (layer * acc.2.num_directions + d)
          (acc.2.slots (layer * acc.2.num_directions + d)).drop_mask)
       else none)
      xcur (sliceDim0 hx (layer * acc.2.num_directions + d))
      (acc.2.i_norm (layer * acc.2.num_directions + d))
      (acc.2.h_norm (layer * acc.2.num_directions + d))
      (hready (layer * acc.2.num_directions + d)).1.1
      (hready (layer * acc.2.num_directions + d)).1.2
      (hready (layer * acc.2.num_directions + d)).2.1
      (hready (layer * acc.2.num_directions + d)).2.2
      t_len
    set idx := layer * acc.2.num_directions + d with hidx
    set SS := gruSeqSpec E acc.2.nonlinearity acc.2.is_norm training
      (acc.2.slots idx).w_ih (acc.2.slots idx).w_hh
      (if acc.2.bias then some (acc.2.slots idx).b_ih else none)
      (if acc.2.bias then some (acc.2.slots idx).b_hh else none)
      (if acc.2.dropout ≠ 0 then some (dropFn idx (acc.2.slots idx).drop_mask) else none)
      xcur (sliceDim0 hx idx, acc.2.i_norm idx, acc.2.h_norm idx) with hSS
    set mcur2 : MinimalGRUM := { acc.2 with
      i_norm := fun j => if j = idx then (SS t_len).2.1 else acc.2.i_norm j
      h_norm := fun j => if j = idx then (SS t_len).2.2 else acc.2.h_norm j } with hmcur2
    have hbiz : ∀ bv, (if acc.2.bias then some (acc.2.slots idx).b_ih else none) =
        some bv → Zero1 bv := by
      intro bv hbv
      cases hab : acc.2.bias with
      | false => rw [hab] at hbv; exact absurd hbv (by simp)
      | true =>
        rw [hab] at hbv
        simp at hbv
        rw [← hbv]
        exact (hzero idx).2.2.1
    have hbhz : ∀ bv, (if acc.2.bias then some (acc.2.slots idx).b_hh else none) =
        some bv → Zero1 bv := by
      intro bv hbv
      cases hab : acc.2.bias with
      | false => rw [hab] at hbv; exact absurd hbv (by simp)
      | true =>
        rw [hab] at hbv
        simp at hbv
        rw [← hbv]
        exact (hzero idx).2.2.2.1
    have hseqz := gruSeqSpec_zero E acc.2.nonlinearity acc.2.is_norm training
      (acc.2.slots idx).w_ih (acc.2.slots idx).w_hh
      (if acc.2.bias then some (acc.2.slots idx).b_ih else none)
      (if acc.2.bias then some (acc.2.slots idx).b_hh else none)
      (if acc.2.dropout ≠ 0 then some (dropFn idx (acc.2.slots idx).drop_mask) else none)
      xcur (sliceDim0 hx idx, acc.2.i_norm idx, acc.2.h_norm idx)
      (hzero idx).1 (hzero idx).2.1 hbiz hbhz (hzero idx).2.2.2.2.1
      (hzero idx).2.2.2.2.2 (sliceDim0_zero hx idx hzh) hnl
    have hfin := gruSeqSpec_inv E acc.2.nonlinearity acc.2.is_norm training
      (acc.2.slots idx).w_ih (acc.2.slots idx).w_hh
      (if acc.2.bias then some (acc.2.slots idx).b_ih else none)
      (if acc.2.bias then some (acc.2.slots idx).b_hh else none)
      (if acc.2.dropout ≠ 0 then some (dropFn idx (acc.2.slots idx).drop_mask) else none)
      xcur (sliceDim0 hx idx, acc.2.i_norm idx, acc.2.h_norm idx)
      (hready idx).1.1 (hready idx).1.2 (hready idx).2.1 (hready idx).2.2 t_len
    have hready2 : GRUNormReady mcur2 := by
      intro j
      by_cases hj : j = idx
      · have hmi : mcur2.i_norm j = (SS t_len).2.1 := by
          show (if j = idx then (SS t_len).2.1 else acc.2.i_norm j) = _
          rw [if_pos hj]
        have hmh : mcur2.h_norm j = (SS t_len).2.2 := by
          show (if j = idx then (SS t_len).2.2 else acc.2.h_norm j) = _
          rw [if_pos hj]
        have hms : mcur2.slots j = acc.2.slots idx := by
          show acc.2.slots j = _
          rw [hj]
        refine ⟨⟨?_, ?_⟩, ?_, ?_⟩
        · rw [hmi, hms]
          exact hfin.1
        · rw [hmi]
          exact hfin.2.1
        · rw [hmh, hms]
          exact hfin.2.2.1
        · rw [hmh]
          exact hfin.2.2.2
      · have hmi : mcur2.i_norm j = acc.2.i_norm j := by
          show (if j = idx then (SS t_len).2.1 else acc.2.i_norm j) = _
          rw [if_neg hj]
        have hmh : mcur2.h_norm j = acc.2.h_norm j := by
          show (if j = idx then (SS t_len).2.2 else acc.2.h_norm j) = _
          rw [if_neg hj]
        refine ⟨⟨?_, ?_⟩, ?_, ?_⟩
        · rw [hmi]
          exact (hready j).1.1
        · rw [hmi]
          exact (hready j).1.2
        · rw [hmh]
          exact (hready j).2.1
        · rw [hmh]
          exact (hready j).2.2
    have hzero2 : GRUZeroWeights mcur2 := by
      intro j
      by_cases hj : j = idx
      · have hmi : mcur2.i_norm j = (SS t_len).2.1 := by
          show (if j = idx then (SS t_len).2.1 else acc.2.i_norm j) = _
          rw [if_pos hj]
        have hmh : mcur2.h_norm j = (SS t_len).2.2 := by
          show (if j = idx then (SS t_len).2.2 else acc.2.h_norm j) = _
          rw [if_pos hj]
        refine ⟨(hzero j).1, (hzero j).2.1, (hzero j).2.2.1, (hzero j).2.2.2.1, ?_, ?_⟩
        · rw [hmi]
          exact (hseqz t_len).2.1
        · rw [hmh]
          exact (hseqz t_len).2.2
      · have hmi : mcur2.i_norm j = acc.2.i_norm j := by
          show (if j = idx then (SS t_len).2.1 else acc.2.i_norm j) = _
          rw [if_neg hj]
        have hmh : mcur2.h_norm j = acc.2.h_norm j := by
          show (if j = idx then (SS t_len).2.2 else acc.2.h_norm j) = _
          rw [if_neg hj]
        refine ⟨(hzero j).1, (hzero j).2.1, (hzero j).2.2.1, (hzero j).2.2.2.1, ?_, ?_⟩
        · rw [hmi]
          exact (hzero j).2.2.2.2.1
        · rw [hmh]
          exact (hzero j).2.2.2.2.2
    obtain ⟨ext', m2, hloop, hstat, hready3, hzero3, hlen', hprops⟩ :=
      ih ((acc.1 ++ [(List.range t_len).map (fun t => (SS (t + 1)).1)]), mcur2) hready2
        hzero2
        (by rw [show mcur2.nonlinearity = acc.2.nonlinearity from rfl]; exact hnl)
    refine ⟨((List.range t_len).map (fun t => (SS (t + 1)).1)) :: ext', m2, ?_, ?_,
      hready3, hzero3, by simp [hlen'], ?_⟩
    · show minimalGRUDirLoop E training dropFn hx t_len layer xcur (d :: rest) acc = _
      rw [minimalGRUDirLoop]
      rw [hrd]
      dsimp only
      rw [hloop]
      simp
    · exact sameStatics_trans ⟨rfl, rfl, rfl, rfl, rfl, rfl, rfl, rfl, rfl, rfl⟩ hstat
    · intro outs hmem
      rcases List.mem_cons.mp hmem with hhd | htl
      · subst hhd
        intro o ho
        obtain ⟨t, ht, rfl⟩ := List.mem_map.mp ho
        exact (gruSeqSpec_zero E acc.2.nonlinearity acc.2.is_norm training
          (acc.2.slots idx).w_ih (acc.2.slots idx).w_hh
          (if acc.2.bias then some (acc.2.slots idx).b_ih else none)
          (if acc.2.bias then some (acc.2.slots idx).b_hh else none)
          (if acc.2.dropout ≠ 0 then some (dropFn idx (acc.2.slots idx).drop_mask)
            else none)
          xcur (sliceDim0 hx idx, acc.2.i_norm idx, acc.2.h_norm idx)
          (hzero idx).1 (hzero idx).2.1 hbiz hbhz (hzero idx).2.2.2.2.1
          (hzero idx).2.2.2.2.2 (sliceDim0_zero hx idx hzh) hnl (t + 1)).1
      · exact hprops outs htl

/-- Helper: with zero parameters everywhere and a zero initial hidden
state, the stacked-layer loop succeeds and (with at least one layer)
returns an all-zero output. -/
theorem minimalGRULayerLoop_zero (E : Engine) (training : Bool)
    (dropFn : ℕ → Tensor1 → Tensor1) (hx : Tensor3) (t_len : ℕ) (hzh : Zero3 hx)
    (ls : List ℕ) :
    ∀ (st : Tensor3 × MinimalGRUM), GRUNormReady st.2 → GRUZeroWeights st.2 →
      (st.2.num_directions = 1 ∨ st.2.num_directions = 2) →
      (st.2.nonlinearity = "relu" ∨ E.tanh 0 = 0) →
    ∃ out m2,
      minimalGRULayerLoop E training dropFn hx t_len ls st = Except.ok (out, m2) ∧
      (ls = [] → out = st.1) ∧ (ls ≠ [] → Zero3 out) := by
  induction ls with
  | nil =>
    intro st hready hzero hnd hnl
    exact ⟨st.1, st.2, by simp [minimalGRULayerLoop], fun _ => rfl,
      fun h => absurd rfl h⟩
  | cons l rest ih =>
    intro st hready hzero hnd hnl
    obtain ⟨ext, m2a, hdl, hstatA, hreadyA, hzeroA, hlen, hprops⟩ :=
      minimalGRUDirLoop_zero E training dropFn hx t_len l st.1 hzh
        (List.range st.2.num_directions) ([], st.2) hready hzero hnl
    rw [List.length_range] at hlen
    have hnd2 : m2a.num_directions = 1 ∨ m2a.num_directions = 2 := by
      rw [show m2a.num_directions = st.2.num_directions from hstatA.2.2.2.2.1]
      exact hnd
    have hnl2 : m2a.nonlinearity = "relu" ∨ E.tanh 0 = 0 := by
      rw [show m2a.nonlinearity = st.2.nonlinearity from hstatA.2.2.2.2.2.2.2.1]
      exact hnl
    rcases hnd with hnd | hnd
    · rw [hnd] at hlen
      obtain ⟨outs, rfl⟩ := List.length_eq_one.mp hlen
      have hzx : Zero3 (cat3dim1 (outs.map unsqueeze1)) := by
        apply cat3dim1_zero
        intro y hy
        obtain ⟨o, ho, rfl⟩ := List.mem_map.mp hy
        exact unsqueeze1_zero o (hprops outs (List.mem_singleton.mpr rfl) o ho)
      obtain ⟨out, m2, hrec, hnil, hzrec⟩ :=
        ih (cat3dim1 (outs.map unsqueeze1), m2a) hreadyA hzeroA hnd2 hnl2
      refine ⟨out, m2, ?_, fun h => absurd h (List.cons_ne_nil _ _), fun _ => ?_⟩
      · rw [minimalGRULayerLoop, hdl]
        dsimp only
        exact hrec
      · by_cases hrest : rest = []
        · rw [hnil hrest]
          exact hzx
        · exact hzrec hrest
    · rw [hnd] at hlen
      obtain ⟨f, b, rfl⟩ := List.length_eq_two.mp hlen
      have hzx : Zero3 (cat3dim1
          ((f.zip b.reverse).map (fun p => unsqueeze1 (cat2dim1 p.1 p.2)))) := by
        apply cat3dim1_zero
        intro y hy
        obtain ⟨p, hp, rfl⟩ := List.mem_map.mp hy
        have hpf := (List.of_mem_zip hp).1
        have hpb := List.mem_reverse.mp (List.of_mem_zip hp).2
        exact unsqueeze1_zero _ (cat2dim1_zero _ _
          (hprops f (by simp) p.1 hpf) (hprops b (by simp) p.2 hpb))
      obtain ⟨out, m2, hrec, hnil, hzrec⟩ :=
        ih (cat3dim1 ((f.zip b.reverse).map (fun p => unsqueeze1 (cat2dim1 p.1 p.2))),
          m2a) hreadyA hzeroA hnd2 hnl2
      refine ⟨out, m2, ?_, fun h => absurd h (List.cons_ne_nil _ _), fun _ => ?_⟩
      · rw [minimalGRULayerLoop, hdl]
        dsimp only
        exact hrec
      · by_cases hrest : rest = []
        · rw [hnil hrest]
          exact hzx
        · exact hzrec hrest

/-- C3: for every timestep of every layer and direction,
MinimalGRU.forward updates the hidden state by the claim's formula —
the source's time loop returns exactly the sequence generated by
h_t = u*h_prev + (1-u)*o with u = sigmoid(gates half 0),
o = nonlinearity(gates half 1) and gates the sum of the two (optionally
per-timestep-normalized) linear projections times the dropout mask —
and consequently a module with all weights zero run on a zero initial
hidden state produces an all-zero output. -/
theorem C3_minimalgru_cell_update (E : Engine) (nonlinearity : String)
    (is_norm training : Bool) (w_ih w_hh : Tensor2) (b_ih b_hh : Option Tensor1)
    (mask : Option Tensor1) (x : Tensor3) (h0 : Tensor2) (i0 h0n : SBN) (T : ℕ)
    (input_size hidden_size max_len num_layers : ℕ) (is_bidirection bias : Bool)
    (dropout : ℚ) (nlz : String) (is_normz training2 : Bool)
    (dropFn : ℕ → Tensor1 → Tensor1) (xz : Tensor3)
    (hin : SBNFeat i0 w_ih.n0) (hmlI : 1 ≤ i0.max_length)
    (hhn : SBNFeat h0n w_hh.n0) (hmlH : 1 ≤ h0n.max_length)
    (hmlz : 1 ≤ max_len) (hlayersz : 1 ≤ num_layers)
    (hnlz : nlz = "relu" ∨ E.tanh 0 = 0) :
    (minimalGRURunDir E nonlinearity is_norm training w_ih w_hh b_ih b_hh mask x
        (List.range T) (h0, [], i0, h0n) =
      Except.ok
        ((gruSeqSpec E nonlinearity is_norm training w_ih w_hh b_ih b_hh mask x
            (h0, i0, h0n) T).1,
          (List.range T).map (fun t =>
            (gruSeqSpec E nonlinearity is_norm training w_ih w_hh b_ih b_hh mask x
              (h0, i0, h0n) (t + 1)).1),
          (gruSeqSpec E nonlinearity is_norm training w_ih w_hh b_ih b_hh mask x
            (h0, i0, h0n) T).2.1,
          (gruSeqSpec E nonlinearity is_norm training w_ih w_hh b_ih b_hh mask x
            (h0, i0, h0n) T).2.2)) ∧
    (∃ out m2,
      MinimalGRU.forward E
          (MinimalGRU.initModule input_size hidden_size max_len num_layers is_bidirection
            bias dropout nlz is_normz zeroGRUDraw)
          training2 dropFn xz
          (zeros3 (num_layers *
              (MinimalGRU.initModule input_size hidden_size max_len num_layers
                is_bidirection bias dropout nlz is_normz zeroGRUDraw).num_directions)
            xz.n0 hidden_size) 1 =
        Except.ok (out, m2) ∧
      Zero3 out) := by
  constructor
  · exact minimalGRURunDir_eq_spec E nonlinearity is_norm training w_ih w_hh b_ih b_hh
      mask x h0 i0 h0n hin hmlI hhn hmlH T
  · have hready : GRUNormReady (MinimalGRU.initModule input_size hidden_size max_len
        num_layers is_bidirection bias dropout nlz is_normz zeroGRUDraw) :=
      fun _ => ⟨⟨fun _ => rfl, hmlz⟩, fun _ => rfl, hmlz⟩
    have hzero : GRUZeroWeights (MinimalGRU.initModule input_size hidden_size max_len
        num_layers is_bidirection bias dropout nlz is_normz zeroGRUDraw) := by
      intro idx
      refine ⟨?_, ?_, ?_, ?_, ⟨rfl, ?_, ?_⟩, rfl, ?_, ?_⟩
      · intro i j
        simp [MinimalGRU.initModule, mk2, zeroGRUDraw]
      · intro i j
        simp [MinimalGRU.initModule, mk2, zeroGRUDraw]
      · intro i
        simp [MinimalGRU.initModule, mk1, zeroGRUDraw]
      · intro i
        simp [MinimalGRU.initModule, mk1, zeroGRUDraw]
      · intro i
        simp [MinimalGRU.initModule, SBN.init, mk1, zeroGRUDraw]
      · intro i
        simp [MinimalGRU.initModule, SBN.init, mk1, zeroGRUDraw]
      · intro i
        simp [MinimalGRU.initModule, SBN.init, mk1, zeroGRUDraw]
      · intro i
        simp [MinimalGRU.initModule, SBN.init, mk1, zeroGRUDraw]
    have hnd : (MinimalGRU.initModule input_size hidden_size max_len num_layers
          is_bidirection bias dropout nlz is_normz zeroGRUDraw).num_directions = 1 ∨
        (MinimalGRU.initModule input_size hidden_size max_len num_layers is_bidirection
          bias dropout nlz is_normz zeroGRUDraw).num_directions = 2 := by
      cases is_bidirection with
      | false => exact Or.inl rfl
      | true => exact Or.inr rfl
    obtain ⟨out, m2, hloop, _, hzrec⟩ :=
      minimalGRULayerLoop_zero E training2 dropFn
        (zeros3 (num_layers *
            (MinimalGRU.initModule input_size hidden_size max_len num_layers
              is_bidirection bias dropout nlz is_normz zeroGRUDraw).num_directions)
          xz.n0 hidden_size)
        xz.n1 (zeros3_zero _ _ _) (List.range num_layers)
        (xz, MinimalGRU.initModule input_size hidden_size max_len num_layers
          is_bidirection bias dropout nlz is_normz zeroGRUDraw)
        hready hzero hnd hnlz
    have hne : List.range num_layers ≠ [] := by
      intro hc
      have := List.range_eq_nil.mp hc
      omega
    refine ⟨out, m2, ?_, hzrec hne⟩
    unfold MinimalGRU.forward
    rw [if_pos rfl]
    exact hloop

/-- Witness for C3: a concrete two-timestep run with 4-wide gates, and
the zero module of C5's shape scenario returning the all-zero output on
a nonzero input. -/
theorem C3_minimalgru_cell_update_witness :
    SBNFeat sbn4 w43.n0 ∧ 1 ≤ sbn4.max_length ∧ SBNFeat sbn4 w42.n0 ∧
      1 ≤ 5 ∧ 1 ≤ 1 ∧ (("relu" : String) = "relu" ∨ E0.tanh 0 = 0) ∧
      ((minimalGRURunDir E0 "relu" true true w43 w42 none none none xTest354
          (List.range 2) (xTest23, [], sbn4, sbn4) =
        Except.ok
          ((gruSeqSpec E0 "relu" true true w43 w42 none none none xTest354
              (xTest23, sbn4, sbn4) 2).1,
            (List.range 2).map (fun t =>
              (gruSeqSpec E0 "relu" true true w43 w42 none none none xTest354
                (xTest23, sbn4, sbn4) (t + 1)).1),
            (gruSeqSpec E0 "relu" true true w43 w42 none none none xTest354
              (xTest23, sbn4, sbn4) 2).2.1,
            (gruSeqSpec E0 "relu" true true w43 w42 none none none xTest354
              (xTest23, sbn4, sbn4) 2).2.2)) ∧
      (∃ out m2,
        MinimalGRU.forward E0 mgruTest false (fun _ v => v) xTest354
            (zeros3 (1 * mgruTest.num_directions) xTest354.n0 8) 1 =
          Except.ok (out, m2) ∧
        Zero3 out)) :=
  ⟨fun _ => rfl, by decide, fun _ => rfl, by decide, by decide, Or.inl rfl,
   C3_minimalgru_cell_update E0 "relu" true true w43 w42 none none none xTest354 xTest23
     sbn4 sbn4 2 4 8 5 1 false true 0 "relu" true false (fun _ v => v) xTest354
     (fun _ => rfl) (by decide) (fun _ => rfl) (by decide) (by decide) (by decide)
     (Or.inl rfl)⟩

/-- Helper: shape of a nonempty dim-1 concatenation of (B, C, L)
tensors: the channel axis accumulates. -/
theorem cat3dim1_shape_channels (B C L : ℕ) (l : List Tensor3) (hne : l ≠ [])
    (hall : ∀ y ∈ l, y.n0 = B ∧ y.n1 = C ∧ y.n2 = L) :
    (cat3dim1 l).n0 = B ∧ (cat3dim1 l).n1 = l.length * C ∧ (cat3dim1 l).n2 = L := by
  induction l with
  | nil => exact absurd rfl hne
  | cons x xs ih =>
    obtain ⟨hx0, hx1, hx2⟩ := hall x (List.mem_cons_self _ _)
    refine ⟨hx0, ?_, hx2⟩
    show x.n1 + (cat3dim1 xs).n1 = (xs.length + 1) * C
    cases xs with
    | nil =>
      show x.n1 + (0 : ℕ) = 1 * C
      omega
    | cons y ys =>
      have hrest := ih (by simp) (fun z hz => hall z (List.mem_cons_of_mem _ hz))
      rw [hx1, hrest.2.1]
      ring

/-- Helper: nn.BatchNorm1d preserves the input's shape. -/
theorem bnm_forward_dims (E : Engine) (training : Bool) (bn : BNM) (y : Tensor3) :
    (BNM.forward E training bn y).n0 = y.n0 ∧ (BNM.forward E training bn y).n1 = y.n1 ∧
      (BNM.forward E training bn y).n2 = y.n2 := by
  cases training <;> exact ⟨rfl, rfl, rfl⟩

/-- Helper: output shape of a SeqLinear with time_dim = 2 on a 3-axis
channel-first input. -/
theorem seqLinear_time2_shape (ins outs : ℕ) (wd : ℕ → ℕ → ℚ) (bd : ℕ → ℚ)
    (y : Tensor3) (hy1 : y.n1 = ins) (hy0 : 0 < y.n0) (hins : 0 < ins)
    (houts : 0 < outs) :
    ((SeqLinear.init ins outs 2 wd bd).forward y).n0 = y.n0 ∧
      ((SeqLinear.init ins outs 2 wd bd).forward y).n1 = outs ∧
      ((SeqLinear.init ins outs 2 wd bd).forward y).n2 = y.n2 := by
  have hcomm : (SeqLinear.init ins outs 2 wd bd).forward y =
      transpose12 ((SeqLinear.init ins outs 1 wd bd).forward (transpose12 y)) := rfl
  have hinner := seqLinear_time1_shape ins outs wd bd (transpose12 y)
    (show y.n1 = ins from hy1) (show 0 < y.n0 from hy0) hins houts
  refine ⟨?_, ?_, ?_⟩
  · rw [hcomm]
    show ((SeqLinear.init ins outs 1 wd bd).forward (transpose12 y)).n0 = y.n0
    exact hinner.1
  · rw [hcomm]
    show ((SeqLinear.init ins outs 1 wd bd).forward (transpose12 y)).n2 = outs
    exact hinner.2.2
  · rw [hcomm]
    show ((SeqLinear.init ins outs 1 wd bd).forward (transpose12 y)).n1 = y.n2
    exact hinner.2.1

/-- Helper: the highway loop of a constructed Highwaynet preserves the
input's shape. -/
theorem highwayLoop_shape (E : Engine) (num_units nH : ℕ)
    (lw : ℕ → ℕ → ℕ → ℚ) (lb : ℕ → ℕ → ℚ) (gw : ℕ → ℕ → ℕ → ℚ) (gb : ℕ → ℕ → ℚ)
    (hu : 0 < num_units) (ls : List ℕ) :
    ∀ (out : Tensor3), out.n1 = num_units → 0 < out.n0 →
    ((highwayLoop E (Highway.init num_units nH lw lb gw gb) ls out).n0 = out.n0 ∧
      (highwayLoop E (Highway.init num_units nH lw lb gw gb) ls out).n1 = out.n1 ∧
      (highwayLoop E (Highway.init num_units nH lw lb gw gb) ls out).n2 = out.n2) := by
  induction ls with
  | nil => exact fun out _ _ => ⟨rfl, rfl, rfl⟩
  | cons i rest ih =>
    intro out h1 h0
    have hlin := seqLinear_time2_shape num_units num_units (lw i) (lb i) out h1 h0 hu hu
    have hstep := ih (add3
      (mul3 (relu3 ((SeqLinear.init num_units num_units 2 (lw i) (lb i)).forward out))
        (map3 E.sigmoid ((SeqLinear.init num_units num_units 2 (gw i) (gb i)).forward
          out)))
      (mul3 out (oneMinus3 (map3 E.sigmoid
        ((SeqLinear.init num_units num_units 2 (gw i) (gb i)).forward out)))))
      (by show ((SeqLinear.init num_units num_units 2 (lw i) (lb i)).forward out).n1 = _
          exact hlin.2.1)
      (by show 0 < ((SeqLinear.init num_units num_units 2 (lw i) (lb i)).forward out).n0
          rw [hlin.1]
          exact h0)
    have hgoal : highwayLoop E (Highway.init num_units nH lw lb gw gb) (i :: rest) out =
        highwayLoop E (Highway.init num_units nH lw lb gw gb) rest
          (add3
            (mul3 (relu3 ((SeqLinear.init num_units num_units 2 (lw i) (lb i)).forward
                out))
              (map3 E.sigmoid ((SeqLinear.init num_units num_units 2 (gw i) (gb
                i)).forward out)))
            (mul3 out (oneMinus3 (map3 E.sigmoid
              ((SeqLinear.init num_units num_units 2 (gw i) (gb i)).forward out))))) :=
      rfl
    rw [hgoal]
    exact ⟨hstep.1.trans (show _ = out.n0 from hlin.1),
      hstep.2.1.trans (show _ = out.n1 from hlin.2.1.trans h1.symm),
      hstep.2.2.trans (show _ = out.n2 from hlin.2.2)⟩

/-- Helper: the torch GRU direction run returns one hidden state per
timestep, each of shape (batch, hidden). -/
theorem torchGRURunDir_facts (E : Engine) (hidden : ℕ) (w : TorchGRUW) (B : ℕ)
    (xs : List Tensor2) :
    ∀ (hx : Tensor2), (∀ inp ∈ xs, inp.n0 = B) →
      (torchGRURunDir E hidden w xs hx).length = xs.length ∧
      ∀ o ∈ torchGRURunDir E hidden w xs hx, o.n0 = B ∧ o.n1 = hidden := by
  induction xs with
  | nil =>
    intro hx _
    exact ⟨rfl, by simp [torchGRURunDir]⟩
  | cons inp rest ih =>
    intro hx hall
    obtain ⟨hlen, hmem⟩ := ih (torchGRUCell E hidden w inp hx)
      (fun i hi => hall i (List.mem_cons_of_mem _ hi))
    constructor
    · show (torchGRUCell E hidden w inp hx ::
        torchGRURunDir E hidden w rest (torchGRUCell E hidden w inp hx)).length = _
      simp [hlen]
    · intro o ho
      have ho2 : o ∈ torchGRUCell E hidden w inp hx ::
          torchGRURunDir E hidden w rest (torchGRUCell E hidden w inp hx) := ho
      rcases List.mem_cons.mp ho2 with hhd | htl
      · subst hhd
        exact ⟨hall inp (List.mem_cons_self _ _), rfl⟩
      · exact hmem o htl

/-- Helper: one bidirectional torch GRU layer maps a (B, T, F) input
with T ≥ 1 to a (B, T, 2*hidden) output. -/
theorem torchGRULayer_shape (E : Engine) (hidden : ℕ) (wF wB : TorchGRUW)
    (x : Tensor3) (h0F h0B : Tensor2) (ht : 1 ≤ x.n1) :
    (torchGRULayer E hidden wF wB x h0F h0B).n0 = x.n0 ∧
      (torchGRULayer E hidden wF wB x h0F h0B).n1 = x.n1 ∧
      (torchGRULayer E hidden wF wB x h0F h0B).n2 = hidden + hidden := by
  have hxs : ∀ inp ∈ (List.range x.n1).map (sliceTime x), inp.n0 = x.n0 := by
    intro inp hi
    obtain ⟨t, _, rfl⟩ := List.mem_map.mp hi
    rfl
  have hxsr : ∀ inp ∈ ((List.range x.n1).map (sliceTime x)).reverse, inp.n0 = x.n0 :=
    fun inp hi => hxs inp (List.mem_reverse.mp hi)
  obtain ⟨hflen, hfmem⟩ := torchGRURunDir_facts E hidden wF x.n0
    ((List.range x.n1).map (sliceTime x)) h0F hxs
  obtain ⟨hblen, hbmem⟩ := torchGRURunDir_facts E hidden wB x.n0
    ((List.range x.n1).map (sliceTime x)).reverse h0B hxsr
  have hflen2 : (torchGRURunDir E hidden wF ((List.range x.n1).map (sliceTime x))
      h0F).length = x.n1 := by
    rw [hflen]
    simp
  have hblen2 : ((torchGRURunDir E hidden wB
      ((List.range x.n1).map (sliceTime x)).reverse h0B).reverse).length = x.n1 := by
    rw [List.length_reverse, hblen]
    simp
  have hzlen : (((torchGRURunDir E hidden wF ((List.range x.n1).map (sliceTime x))
      h0F).zip
        ((torchGRURunDir E hidden wB ((List.range x.n1).map (sliceTime x)).reverse
          h0B).reverse)).map
      (fun p => unsqueeze1 (cat2dim1 p.1 p.2))).length = x.n1 := by
    simp [List.length_zip, hflen2, hblen2]
  have hcat := cat3dim1_shape x.n0 (hidden + hidden)
    (((torchGRURunDir E hidden wF ((List.range x.n1).map (sliceTime x)) h0F).zip
        ((torchGRURunDir E hidden wB ((List.range x.n1).map (sliceTime x)).reverse
          h0B).reverse)).map
      (fun p => unsqueeze1 (cat2dim1 p.1 p.2)))
    (by
      intro hc
      rw [hc] at hzlen
      simp at hzlen
      omega)
    (by
      intro y hy
      obtain ⟨p, hp, rfl⟩ := List.mem_map.mp hy
      have hpf := hfmem p.1 (List.of_mem_zip hp).1
      have hpb := hbmem p.2 (List.mem_reverse.mp (List.of_mem_zip hp).2)
      refine ⟨?_, rfl, ?_⟩
      · show p.1.n0 = x.n0
        exact hpf.1
      · show p.1.n1 + p.2.n1 = hidden + hidden
        rw [hpf.2, hpb.2])
  have hunf : torchGRULayer E hidden wF wB x h0F h0B =
      cat3dim1
        (((torchGRURunDir E hidden wF ((List.range x.n1).map (sliceTime x)) h0F).zip
            ((torchGRURunDir E hidden wB ((List.range x.n1).map (sliceTime x)).reverse
              h0B).reverse)).map
          (fun p => unsqueeze1 (cat2dim1 p.1 p.2))) := rfl
  rw [hunf]
  exact ⟨hcat.1, by rw [hcat.2.1, hzlen], hcat.2.2⟩

/-- Helper: the stacked bidirectional torch GRU with at least one layer
maps a (B, T, F) input with T ≥ 1 to a (B, T, 2*hidden) output. -/
theorem torchBiGRULoop_shape (E : Engine) (hidden : ℕ) (ws : ℕ → ℕ → TorchGRUW)
    (h0 : Tensor3) (B T : ℕ) (hT : 1 ≤ T) (ls : List ℕ) :
    ∀ (x : Tensor3), x.n0 = B → x.n1 = T →
    (ls = [] → torchBiGRULoop E hidden ws h0 ls x = x) ∧
    (ls ≠ [] → (torchBiGRULoop E hidden ws h0 ls x).n0 = B ∧
      (torchBiGRULoop E hidden ws h0 ls x).n1 = T ∧
      (torchBiGRULoop E hidden ws h0 ls x).n2 = hidden + hidden) := by
  induction ls with
  | nil => exact fun x _ _ => ⟨fun _ => rfl, fun h => absurd rfl h⟩
  | cons l rest ih =>
    intro x hB hT2
    have hlayer := torchGRULayer_shape E hidden (ws l 0) (ws l 1) x
      (sliceDim0 h0 (2 * l)) (sliceDim0 h0 (2 * l + 1)) (by omega)
    have hrec := ih (torchGRULayer E hidden (ws l 0) (ws l 1) x
        (sliceDim0 h0 (2 * l)) (sliceDim0 h0 (2 * l + 1)))
      (by rw [hlayer.1, hB]) (by rw [hlayer.2.1, hT2])
    have hunf : torchBiGRULoop E hidden ws h0 (l :: rest) x =
        torchBiGRULoop E hidden ws h0 rest
          (torchGRULayer E hidden (ws l 0) (ws l 1) x (sliceDim0 h0 (2 * l))
            (sliceDim0 h0 (2 * l + 1))) := rfl
    refine ⟨fun h => absurd h (List.cons_ne_nil _ _), fun _ => ?_⟩
    rw [hunf]
    by_cases hrest : rest = []
    · have heq := hrec.1 hrest
      rw [heq]
      exact ⟨by rw [hlayer.1, hB], by rw [hlayer.2.1, hT2], hlayer.2.2⟩
    · exact hrec.2 hrest

/-- Helper: dimensions of the even-kernel trailing trim. -/
theorem convFitDim_dims (y : Tensor3) (k : ℕ) :
    (convFitDim y k).n0 = y.n0 ∧ (convFitDim y k).n1 = y.n1 ∧
      (convFitDim y k).n2 = (if k % 2 = 0 then y.n2 - 1 else y.n2) := by
  unfold convFitDim
  by_cases hk : k % 2 = 0
  · rw [if_pos hk, if_pos hk]
    exact ⟨rfl, rfl, rfl⟩
  · rw [if_neg hk, if_neg hk]
    exact ⟨rfl, rfl, rfl⟩

/-- Helper: every chained bank stage of a constructed CBHG preserves
the (batch, hidden, time) shape of a channel-matched input. -/
theorem chainedBankSpec_shape (E : Engine) (training : Bool)
    (hidden K proj nH nG mpk : ℕ) (θ : CBHGDraw) (x : Tensor3) (hxh : x.n1 = hidden)
    (n : ℕ) :
    (chainedBankSpec E training (CBHG.init hidden K proj nH nG mpk θ) x n).n0 = x.n0 ∧
      (chainedBankSpec E training (CBHG.init hidden K proj nH nG mpk θ) x n).n1 =
        hidden ∧
      (chainedBankSpec E training (CBHG.init hidden K proj nH nG mpk θ) x n).n2 =
        x.n2 := by
  induction n with
  | zero => exact ⟨rfl, hxh, rfl⟩
  | succ n ih =>
    have hunf : chainedBankSpec E training (CBHG.init hidden K proj nH nG mpk θ) x
        (n + 1) =
        BNM.forward E training ((CBHG.init hidden K proj nH nG mpk θ).batchnorms n)
          (relu3 (contiguous3 (convFitDim
            (((CBHG.init hidden K proj nH nG mpk θ).convbank n).forward
              (chainedBankSpec E training (CBHG.init hidden K proj nH nG mpk θ) x n))
            (n + 1)))) := rfl
    rw [hunf]
    have hbn := bnm_forward_dims E training
      ((CBHG.init hidden K proj nH nG mpk θ).batchnorms n)
      (relu3 (contiguous3 (convFitDim
        (((CBHG.init hidden K proj nH nG mpk θ).convbank n).forward
          (chainedBankSpec E training (CBHG.init hidden K proj nH nG mpk θ) x n))
        (n + 1))))
    have hfit := convFitDim_dims
      (((CBHG.init hidden K proj nH nG mpk θ).convbank n).forward
        (chainedBankSpec E training (CBHG.init hidden K proj nH nG mpk θ) x n)) (n + 1)
    have hconv2 : (((CBHG.init hidden K proj nH nG mpk θ).convbank n).forward
        (chainedBankSpec E training (CBHG.init hidden K proj nH nG mpk θ) x n)).n2 =
        (chainedBankSpec E training (CBHG.init hidden K proj nH nG mpk θ) x n).n2 +
          2 * ((n + 1) / 2) + 1 - (n + 1) := rfl
    refine ⟨?_, ?_, ?_⟩
    · rw [hbn.1]
      show (convFitDim (((CBHG.init hidden K proj nH nG mpk θ).convbank n).forward
        (chainedBankSpec E training (CBHG.init hidden K proj nH nG mpk θ) x n))
        (n + 1)).n0 = x.n0
      rw [hfit.1]
      exact ih.1
    · rw [hbn.2.1]
      show (convFitDim (((CBHG.init hidden K proj nH nG mpk θ).convbank n).forward
        (chainedBankSpec E training (CBHG.init hidden K proj nH nG mpk θ) x n))
        (n + 1)).n1 = hidden
      rw [hfit.2.1]
      rfl
    · rw [hbn.2.2]
      show (convFitDim (((CBHG.init hidden K proj nH nG mpk θ).convbank n).forward
        (chainedBankSpec E training (CBHG.init hidden K proj nH nG mpk θ) x n))
        (n + 1)).n2 = x.n2
      rw [hfit.2.2, hconv2, ih.2.2]
      by_cases hk : (n + 1) % 2 = 0
      · rw [if_pos hk]
        omega
      · rw [if_neg hk]
        omega

/-- Helper: the concatenated bank output of a constructed CBHG has
shape (batch, K*hidden, time). -/
theorem cbhgConvCat_shape (E : Engine) (training : Bool)
    (hidden K proj nH nG mpk : ℕ) (θ : CBHGDraw) (x : Tensor3) (hK : 1 ≤ K)
    (hxh : x.n1 = hidden) :
    (cbhgConvCat E training (CBHG.init hidden K proj nH nG mpk θ) x).n0 = x.n0 ∧
      (cbhgConvCat E training (CBHG.init hidden K proj nH nG mpk θ) x).n1 =
        K * hidden ∧
      (cbhgConvCat E training (CBHG.init hidden K proj nH nG mpk θ) x).n2 = x.n2 := by
  unfold cbhgConvCat
  rw [cbhgBankLoop_eq_chained]
  have hlen : ((List.range (CBHG.init hidden K proj nH nG mpk θ).K).map
      (fun k => chainedBankSpec E training (CBHG.init hidden K proj nH nG mpk θ) x
        (k + 1))).length = K := by
    simp
    rfl
  have hcat := cat3dim1_shape_channels x.n0 hidden x.n2
    ((List.range (CBHG.init hidden K proj nH nG mpk θ).K).map
      (fun k => chainedBankSpec E training (CBHG.init hidden K proj nH nG mpk θ) x
        (k + 1)))
    (by
      intro hc
      rw [hc] at hlen
      simp at hlen
      omega)
    (by
      intro y hy
      obtain ⟨k, _, rfl⟩ := List.mem_map.mp hy
      exact chainedBankSpec_shape E training hidden K proj nH nG mpk θ x hxh (k + 1))
  exact ⟨hcat.1, by rw [hcat.2.1, hlen], hcat.2.2⟩

/-- C1 (amended): for every valid input of shape (batch, hidden_size,
time) to a CBHG built with max_pool_kernel_size = 2, content_feature
has shape (batch, time, 2*hidden_size) — its time length equals the
input time length — and style_feature has shape
(batch, 2*hidden_size, time): its channel width is twice hidden_size,
the output width of conv_projection_1, not hidden_size. -/
theorem C1_cbhg_forward_shapes (E : Engine) (θ : CBHGDraw) (training : Bool)
    (hidden K proj nH nG : ℕ) (x : Tensor3) (hh : 1 ≤ hidden) (hK : 1 ≤ K)
    (hG : 1 ≤ nG) (hb : 1 ≤ x.n0) (hL : 1 ≤ x.n2) (hxh : x.n1 = hidden) :
    ((CBHG.forward E training (CBHG.init hidden K proj nH nG 2 θ) x).1.n0 = x.n0 ∧
      (CBHG.forward E training (CBHG.init hidden K proj nH nG 2 θ) x).1.n1 = x.n2 ∧
      (CBHG.forward E training (CBHG.init hidden K proj nH nG 2 θ) x).1.n2 =
        2 * hidden) ∧
    ((CBHG.forward E training (CBHG.init hidden K proj nH nG 2 θ) x).2.n0 = x.n0 ∧
      (CBHG.forward E training (CBHG.init hidden K proj nH nG 2 θ) x).2.n1 =
        2 * hidden ∧
      (CBHG.forward E training (CBHG.init hidden K proj nH nG 2 θ) x).2.n2 = x.n2) := by
  have hcc := cbhgConvCat_shape E training hidden K proj nH nG 2 θ x hK hxh
  have hpool0 : (trimLast (maxPool1dPad1
      (cbhgConvCat E training (CBHG.init hidden K proj nH nG 2 θ) x)
      (CBHG.init hidden K proj nH nG 2 θ).max_pool_kernel_size)).n0 = x.n0 := hcc.1
  have hpool2 : (trimLast (maxPool1dPad1
      (cbhgConvCat E training (CBHG.init hidden K proj nH nG 2 θ) x)
      (CBHG.init hidden K proj nH nG 2 θ).max_pool_kernel_size)).n2 = x.n2 := by
    have h1 : (trimLast (maxPool1dPad1
        (cbhgConvCat E training (CBHG.init hidden K proj nH nG 2 θ) x)
        (CBHG.init hidden K proj nH nG 2 θ).max_pool_kernel_size)).n2 =
        (cbhgConvCat E training (CBHG.init hidden K proj nH nG 2 θ) x).n2 + 2 + 1 - 2 -
          1 := rfl
    rw [h1, hcc.2.2]
    omega
  have hb1 := bnm_forward_dims E training
    (CBHG.init hidden K proj nH nG 2 θ).batchnorm_proj_1
    (relu3 (convFitDim ((CBHG.init hidden K proj nH nG 2 θ).conv_projection_1.forward
      (trimLast (maxPool1dPad1
        (cbhgConvCat E training (CBHG.init hidden K proj nH nG 2 θ) x)
        (CBHG.init hidden K proj nH nG 2 θ).max_pool_kernel_size))) 3))
  have hst0 : (CBHG.forward E training (CBHG.init hidden K proj nH nG 2 θ) x).2.n0 =
      x.n0 := by
    show (BNM.forward E training (CBHG.init hidden K proj nH nG 2 θ).batchnorm_proj_1
      (relu3 (convFitDim ((CBHG.init hidden K proj nH nG 2 θ).conv_projection_1.forward
        (trimLast (maxPool1dPad1
          (cbhgConvCat E training (CBHG.init hidden K proj nH nG 2 θ) x)
          (CBHG.init hidden K proj nH nG 2 θ).max_pool_kernel_size))) 3))).n0 = x.n0
    rw [hb1.1]
    exact hpool0
  have hst1 : (CBHG.forward E training (CBHG.init hidden K proj nH nG 2 θ) x).2.n1 =
      2 * hidden := by
    show (BNM.forward E training (CBHG.init hidden K proj nH nG 2 θ).batchnorm_proj_1
      (relu3 (convFitDim ((CBHG.init hidden K proj nH nG 2 θ).conv_projection_1.forward
        (trimLast (maxPool1dPad1
          (cbhgConvCat E training (CBHG.init hidden K proj nH nG 2 θ) x)
          (CBHG.init hidden K proj nH nG 2 θ).max_pool_kernel_size))) 3))).n1 =
      2 * hidden
    rw [hb1.2.1]
    show hidden * 2 = 2 * hidden
    ring
  have hst2 : (CBHG.forward E training (CBHG.init hidden K proj nH nG 2 θ) x).2.n2 =
      x.n2 := by
    show (BNM.forward E training (CBHG.init hidden K proj nH nG 2 θ).batchnorm_proj_1
      (relu3 (convFitDim ((CBHG.init hidden K proj nH nG 2 θ).conv_projection_1.forward
        (trimLast (maxPool1dPad1
          (cbhgConvCat E training (CBHG.init hidden K proj nH nG 2 θ) x)
          (CBHG.init hidden K proj nH nG 2 θ).max_pool_kernel_size))) 3))).n2 = x.n2
    rw [hb1.2.2]
    show (trimLast (maxPool1dPad1
        (cbhgConvCat E training (CBHG.init hidden K proj nH nG 2 θ) x)
        (CBHG.init hidden K proj nH nG 2 θ).max_pool_kernel_size)).n2 + 2 * 1 + 1 - 3 =
      x.n2
    rw [hpool2]
    omega
  have hb2 := bnm_forward_dims E training
    (CBHG.init hidden K proj nH nG 2 θ).batchnorm_proj_2
    (convFitDim ((CBHG.init hidden K proj nH nG 2 θ).conv_projection_2.forward
      ((CBHG.forward E training (CBHG.init hidden K proj nH nG 2 θ) x).2)) 3)
  have hcp0 : (add3 (BNM.forward E training
      (CBHG.init hidden K proj nH nG 2 θ).batchnorm_proj_2
      (convFitDim ((CBHG.init hidden K proj nH nG 2 θ).conv_projection_2.forward
        ((CBHG.forward E training (CBHG.init hidden K proj nH nG 2 θ) x).2)) 3))
      x).n0 = x.n0 := by
    show (BNM.forward E training (CBHG.init hidden K proj nH nG 2 θ).batchnorm_proj_2
      (convFitDim ((CBHG.init hidden K proj nH nG 2 θ).conv_projection_2.forward
        ((CBHG.forward E training (CBHG.init hidden K proj nH nG 2 θ) x).2)) 3)).n0 =
      x.n0
    rw [hb2.1]
    exact hst0
  have hcp1 : (add3 (BNM.forward E training
      (CBHG.init hidden K proj nH nG 2 θ).batchnorm_proj_2
      (convFitDim ((CBHG.init hidden K proj nH nG 2 θ).conv_projection_2.forward
        ((CBHG.forward E training (CBHG.init hidden K proj nH nG 2 θ) x).2)) 3))
      x).n1 = hidden := by
    show (BNM.forward E training (CBHG.init hidden K proj nH nG 2 θ).batchnorm_proj_2
      (convFitDim ((CBHG.init hidden K proj nH nG 2 θ).conv_projection_2.forward
        ((CBHG.forward E training (CBHG.init hidden K proj nH nG 2 θ) x).2)) 3)).n1 =
      hidden
    rw [hb2.2.1]
    rfl
  have hcp2 : (add3 (BNM.forward E training
      (CBHG.init hidden K proj nH nG 2 θ).batchnorm_proj_2
      (convFitDim ((CBHG.init hidden K proj nH nG 2 θ).conv_projection_2.forward
        ((CBHG.forward E training (CBHG.init hidden K proj nH nG 2 θ) x).2)) 3))
      x).n2 = x.n2 := by
    show (BNM.forward E training (CBHG.init hidden K proj nH nG 2 θ).batchnorm_proj_2
      (convFitDim ((CBHG.init hidden K proj nH nG 2 θ).conv_projection_2.forward
        ((CBHG.forward E training (CBHG.init hidden K proj nH nG 2 θ) x).2)) 3)).n2 =
      x.n2
    rw [hb2.2.2]
    show ((CBHG.forward E training (CBHG.init hidden K proj nH nG 2 θ) x).2).n2 +
      2 * 1 + 1 - 3 = x.n2
    rw [hst2]
    omega
  have hhwunf : HighwayM.forward E (CBHG.init hidden K proj nH nG 2 θ).highway
      (add3 (BNM.forward E training
        (CBHG.init hidden K proj nH nG 2 θ).batchnorm_proj_2
        (convFitDim ((CBHG.init hidden K proj nH nG 2 θ).conv_projection_2.forward
          ((CBHG.forward E training (CBHG.init hidden K proj nH nG 2 θ) x).2)) 3)) x) =
      highwayLoop E (Highway.init hidden nH θ.hwLinW θ.hwLinB θ.hwGateW θ.hwGateB)
        (List.range nH)
        (add3 (BNM.forward E training
          (CBHG.init hidden K proj nH nG 2 θ).batchnorm_proj_2
          (convFitDim ((CBHG.init hidden K proj nH nG 2 θ).conv_projection_2.forward
            ((CBHG.forward E training (CBHG.init hidden K proj nH nG 2 θ) x).2)) 3))
          x) := rfl
  have hhw := highwayLoop_shape E hidden nH θ.hwLinW θ.hwLinB θ.hwGateW θ.hwGateB
    (by omega) (List.range nH)
    (add3 (BNM.forward E training
      (CBHG.init hidden K proj nH nG 2 θ).batchnorm_proj_2
      (convFitDim ((CBHG.init hidden K proj nH nG 2 θ).conv_projection_2.forward
        ((CBHG.forward E training (CBHG.init hidden K proj nH nG 2 θ) x).2)) 3)) x)
    hcp1 (by rw [hcp0]; omega)
  have hgruunf : (CBHG.forward E training (CBHG.init hidden K proj nH nG 2 θ) x).1 =
      torchBiGRULoop E hidden (CBHG.init hidden K proj nH nG 2 θ).gru
        (zeros3 (2 * nG) x.n0 hidden) (List.range nG)
        (transpose12 (HighwayM.forward E (CBHG.init hidden K proj nH nG 2 θ).highway
          (add3 (BNM.forward E training
            (CBHG.init hidden K proj nH nG 2 θ).batchnorm_proj_2
            (convFitDim ((CBHG.init hidden K proj nH nG 2 θ).conv_projection_2.forward
              ((CBHG.forward E training (CBHG.init hidden K proj nH nG 2 θ) x).2)) 3))
            x))) := rfl
  have hgru := torchBiGRULoop_shape E hidden (CBHG.init hidden K proj nH nG 2 θ).gru
    (zeros3 (2 * nG) x.n0 hidden) x.n0 x.n2 hL (List.range nG)
    (transpose12 (HighwayM.forward E (CBHG.init hidden K proj nH nG 2 θ).highway
      (add3 (BNM.forward E training
        (CBHG.init hidden K proj nH nG 2 θ).batchnorm_proj_2
        (convFitDim ((CBHG.init hidden K proj nH nG 2 θ).conv_projection_2.forward
          ((CBHG.forward E training (CBHG.init hidden K proj nH nG 2 θ) x).2)) 3)) x)))
    (by
      show (HighwayM.forward E (CBHG.init hidden K proj nH nG 2 θ).highway
        (add3 (BNM.forward E training
          (CBHG.init hidden K proj nH nG 2 θ).batchnorm_proj_2
          (convFitDim ((CBHG.init hidden K proj nH nG 2 θ).conv_projection_2.forward
            ((CBHG.forward E training (CBHG.init hidden K proj nH nG 2 θ) x).2)) 3))
          x)).n0 = x.n0
      rw [hhwunf, hhw.1]
      exact hcp0)
    (by
      show (HighwayM.forward E (CBHG.init hidden K proj nH nG 2 θ).highway
        (add3 (BNM.forward E training
          (CBHG.init hidden K proj nH nG 2 θ).batchnorm_proj_2
          (convFitDim ((CBHG.init hidden K proj nH nG 2 θ).conv_projection_2.forward
            ((CBHG.forward E training (CBHG.init hidden K proj nH nG 2 θ) x).2)) 3))
          x)).n2 = x.n2
      rw [hhwunf, hhw.2.2]
      exact hcp2)
  have hne : List.range nG ≠ [] := by
    intro hc
    have := List.range_eq_nil.mp hc
    omega
  have hcontent := hgru.2 hne
  refine ⟨⟨?_, ?_, ?_⟩, hst0, hst1, hst2⟩
  · rw [hgruunf]
    exact hcontent.1
  · rw [hgruunf]
    exact hcontent.2.1
  · rw [hgruunf, hcontent.2.2]
    omega

/-- Counterexample to C1 as stated: in the claim's own scenario
(hidden_size 16, K = 4, max_pool_kernel_size 2, one recurrent layer,
input shape (2, 16, 20)), style_feature's channel width is not
hidden_size = 16 — it is 32, the output width of conv_projection_1. -/
theorem C1_style_width_counterexample :
    (CBHG.forward E0 false (CBHG.init 16 4 256 4 1 2 zeroCBHGDraw)
      (zeros3 2 16 20)).2.n1 ≠ 16 := by decide

/-- Witness for the amended C1 at the claim's scenario: content_feature
has shape (2, 20, 32) and style_feature has shape (2, 32, 20). -/
theorem C1_cbhg_forward_shapes_witness :
    1 ≤ 16 ∧ 1 ≤ 4 ∧ 1 ≤ 1 ∧ 1 ≤ (zeros3 2 16 20).n0 ∧ 1 ≤ (zeros3 2 16 20).n2 ∧
      (zeros3 2 16 20).n1 = 16 ∧
      (((CBHG.forward E0 false (CBHG.init 16 4 256 4 1 2 zeroCBHGDraw)
            (zeros3 2 16 20)).1.n0 = (zeros3 2 16 20).n0 ∧
        (CBHG.forward E0 false (CBHG.init 16 4 256 4 1 2 zeroCBHGDraw)
            (zeros3 2 16 20)).1.n1 = (zeros3 2 16 20).n2 ∧
        (CBHG.forward E0 false (CBHG.init 16 4 256 4 1 2 zeroCBHGDraw)
            (zeros3 2 16 20)).1.n2 = 2 * 16) ∧
      ((CBHG.forward E0 false (CBHG.init 16 4 256 4 1 2 zeroCBHGDraw)
            (zeros3 2 16 20)).2.n0 = (zeros3 2 16 20).n0 ∧
        (CBHG.forward E0 false (CBHG.init 16 4 256 4 1 2 zeroCBHGDraw)
            (zeros3 2 16 20)).2.n1 = 2 * 16 ∧
        (CBHG.forward E0 false (CBHG.init 16 4 256 4 1 2 zeroCBHGDraw)
            (zeros3 2 16 20)).2.n2 = (zeros3 2 16 20).n2)) :=
  ⟨by decide, by decide, by decide, by decide, by decide, by decide,
   C1_cbhg_forward_shapes E0 zeroCBHGDraw false 16 4 256 4 1 (zeros3 2 16 20)
     (by decide) (by decide) (by decide) (by decide) (by decide) (by decide)⟩

end PytorchSR
